import Mathlib

/-!
Verification development for the trajectory synthesis / anomaly injection /
anomaly detection pipeline of the Platform_suivi backend.
Shallow embedding conventions:
* Python floats are embedded as exact rationals (`ℚ`); datetimes are embedded
  as rational second counts (`timestamp` is seconds since an epoch that falls
  on a midnight, so `hour = ⌊t/3600⌋ mod 24`).
* Geographic quantities that the code derives with transcendental functions
  (haversine distance, bearings) are embedded on `ℝ`.
* Randomness is embedded by passing the drawn values explicitly, together
  with a validity predicate recording the support of each distribution used
  by the code.
* Database state is embedded as explicit record lists, and the SQLAlchemy
  session operations of the services as pure state transformers.
-/
set_option maxHeartbeats 1000000

/-- Python `int()` applied to a rational: truncation toward zero, written
with the executable `Rat.floor` (`pyInt_eq_floor_ceil` below identifies it
with the mathematical floor/ceiling). -/
def pyInt (q : ℚ) : ℤ := if 0 ≤ q then q.floor else -(-q).floor

/-- Truncation toward zero, clamped to ℕ (used where the code result indexes a list). -/
def pyIntNat (q : ℚ) : ℕ := (pyInt q).toNat

/-- Round to the nearest integer, ties to even (Python `round`). -/
def roundHalfEven (q : ℚ) : ℤ :=
  let f := ⌊q⌋
  let r := q - f
  if r < 1/2 then f
  else if 1/2 < r then f + 1
  else if f % 2 = 0 then f else f + 1

/-- Python `round(x, 1)`: round to one decimal digit, ties to even. -/
def round1 (q : ℚ) : ℚ := (roundHalfEven (10 * q) : ℚ) / 10

/-- Sum of a rational list (`np.sum` / Python `sum`). -/
def listSum (l : List ℚ) : ℚ := l.foldl (· + ·) 0

/-- `np.max` of a nonempty list (0 for the empty list, which the code guards against). -/
def listMax : List ℚ → ℚ
  | [] => 0
  | h :: t => t.foldl max h

/-- `np.min` of a nonempty list (0 for the empty list, which the code guards against). -/
def listMin : List ℚ → ℚ
  | [] => 0
  | h :: t => t.foldl min h

/-- `np.mean` of a list. -/
def listMean (l : List ℚ) : ℚ := listSum l / (l.length : ℚ)

/-- `np.var` of a list: population variance, mean of squared deviations. -/
def listVar (l : List ℚ) : ℚ := listMean (l.map (fun x => (x - listMean l) ^ 2))

/-!
### Savitzky–Golay smoothing, window 5, degree 2

`scipy.signal.savgol_filter(y, window_length=5, polyorder=2)` with the default
`mode='interp'`: interior samples are the value at the window center of the
least-squares quadratic fit over the surrounding 5 samples; the first two and
last two samples are obtained by fitting a quadratic to the first (resp. last)
5 samples and evaluating the fit at those edge positions.

`fitC0/fitC1/fitC2` are the closed-form least-squares coefficients of the
quadratic `c0 + c1*t + c2*t^2` fitted to samples `y0..y4` at centered
abscissas `t = -2,-1,0,1,2`; `fitEval_normal_equations` below checks that they
satisfy the least-squares normal equations, which justifies the closed form
against the `np.polyfit` call inside scipy.
-/

def fitC0 (y0 y1 y2 y3 y4 : ℚ) : ℚ := (-3*y0 + 12*y1 + 17*y2 + 12*y3 - 3*y4) / 35

def fitC1 (y0 y1 _y2 y3 y4 : ℚ) : ℚ := (-2*y0 - y1 + y3 + 2*y4) / 10

def fitC2 (y0 y1 y2 y3 y4 : ℚ) : ℚ := (2*y0 - y1 - 2*y2 - y3 + 2*y4) / 14

def fitEval (y0 y1 y2 y3 y4 t : ℚ) : ℚ :=
  fitC0 y0 y1 y2 y3 y4 + fitC1 y0 y1 y2 y3 y4 * t + fitC2 y0 y1 y2 y3 y4 * t ^ 2

/-- List lookup with default 0, as used by the smoothing kernels. -/
def getQ (ys : List ℚ) (j : ℕ) : ℚ := ys.getD j 0

/-- One output sample of `savgol_filter(·, 5, 2)` (window always 5 here: the
caller applies the filter only to sequences of ≥ 5 samples, and then
`min(5, len | len-1)` is 5). -/
def smoothAt (ys : List ℚ) (i : ℕ) : ℚ :=
  if i < 2 then
    fitEval (getQ ys 0) (getQ ys 1) (getQ ys 2) (getQ ys 3) (getQ ys 4) ((i : ℚ) - 2)
  else if ys.length - 2 ≤ i then
    fitEval (getQ ys (ys.length-5)) (getQ ys (ys.length-4)) (getQ ys (ys.length-3))
      (getQ ys (ys.length-2)) (getQ ys (ys.length-1)) ((i : ℚ) - (ys.length : ℚ) + 3)
  else
    fitC0 (getQ ys (i-2)) (getQ ys (i-1)) (getQ ys i) (getQ ys (i+1)) (getQ ys (i+2))

/-- `scipy.signal.savgol_filter(ys, 5, 2)` on a rational sequence. -/
def savgol52 (ys : List ℚ) : List ℚ := (List.range ys.length).map (smoothAt ys)

/-!
### Trajectory points (schema `app/schemas/anomaly.py: TrajectPoint`)
-/

structure TrajectPoint where
  id : Option ℕ
  mission_id : ℤ
  timestamp : ℚ
  latitude : ℚ
  longitude : ℚ
  vitesse : ℚ
  mission_start : ℚ
  mission_end : ℚ
deriving DecidableEq, Inhabited

/-- `AnomalyDetectionService._smooth_trajectory`: Savitzky–Golay smoothing of
latitude, longitude and speed; sequences of fewer than 5 points are returned
unchanged (the window check `window_length >= 5` always passes for ≥ 5 points). -/
def smoothTrajectory (pts : List TrajectPoint) : List TrajectPoint :=
  if pts.length < 5 then pts
  else
    (List.range pts.length).map (fun i =>
      { pts.getD i default with
        latitude := (savgol52 (pts.map TrajectPoint.latitude)).getD i 0,
        longitude := (savgol52 (pts.map TrajectPoint.longitude)).getD i 0,
        vitesse := (savgol52 (pts.map TrajectPoint.vitesse)).getD i 0 })

/-!
### Geometry (haversine distance, bearing)

`_calculate_distance` and `_calculate_bearing` of
`app/services/anomaly_detection.py` (identical code also appears in
`anomaly.py` and `simulator_service.py`). Angles are embedded on `ℝ`.
-/

open Classical in
/-- Two-argument arctangent, `math.atan2`. -/
noncomputable def atan2 (y x : ℝ) : ℝ :=
  if 0 < x then Real.arctan (y / x)
  else if x < 0 ∧ 0 ≤ y then Real.arctan (y / x) + Real.pi
  else if x < 0 ∧ y < 0 then Real.arctan (y / x) - Real.pi
  else if x = 0 ∧ 0 < y then Real.pi / 2
  else if x = 0 ∧ y < 0 then -(Real.pi / 2)
  else 0

/-- `math.radians`. -/
noncomputable def radiansOf (d : ℚ) : ℝ := (d : ℝ) * Real.pi / 180

/-- Haversine great-circle distance in km (`_calculate_distance`). -/
noncomputable def calculateDistance (lat1 lon1 lat2 lon2 : ℚ) : ℝ :=
  let la1 := radiansOf lat1
  let lo1 := radiansOf lon1
  let la2 := radiansOf lat2
  let lo2 := radiansOf lon2
  let dlat := la2 - la1
  let dlon := lo2 - lo1
  let a := Real.sin (dlat/2) ^ 2 + Real.cos la1 * Real.cos la2 * Real.sin (dlon/2) ^ 2
  let c := 2 * Real.arcsin (Real.sqrt a)
  6371 * c

/-- Python float modulo with positive modulus (result in `[0, m)`). -/
noncomputable def fmodR (x m : ℝ) : ℝ := x - m * ⌊x / m⌋

/-- Bearing between two GPS points in degrees (`_calculate_bearing`). -/
noncomputable def calculateBearing (lat1 lon1 lat2 lon2 : ℚ) : ℝ :=
  let la1 := radiansOf lat1
  let la2 := radiansOf lat2
  let dlon := radiansOf lon2 - radiansOf lon1
  let y := Real.sin dlon * Real.cos la2
  let x := Real.cos la1 * Real.sin la2 - Real.sin la1 * Real.cos la2 * Real.cos dlon
  fmodR (atan2 y x * 180 / Real.pi + 360) 360

/-!
### Feature extraction (`extract_trajectory_features`)
-/

/-- Hour-of-day of an embedded timestamp (`datetime.hour`). -/
def tsHour (t : ℚ) : ℤ := ⌊t / 3600⌋ % 24

/-- Consecutive pairs of a list. -/
def pairsOf {α : Type} (l : List α) : List (α × α) := l.zip l.tail

/-- Sum of a list of reals. -/
def rSum (l : List ℝ) : ℝ := l.foldl (· + ·) 0

/-- `np.mean` on reals. -/
noncomputable def rMean (l : List ℝ) : ℝ := rSum l / (l.length : ℝ)

/-- `np.var` on reals. -/
noncomputable def rVar (l : List ℝ) : ℝ := rMean (l.map (fun x => (x - rMean l) ^ 2))

/-- `np.std` on reals. -/
noncomputable def rStd (l : List ℝ) : ℝ := Real.sqrt (rVar l)

open Classical in
/-- Wrapped absolute bearing difference used for direction changes:
`bearing_diff = |b - a|`, folded to `360 - |b - a|` when above 180. -/
noncomputable def bearingDiff (a b : ℝ) : ℝ :=
  let d := |b - a|
  if 180 < d then 360 - d else d

/-- Per-step great-circle distances of the (smoothed) trajectory. -/
noncomputable def stepDistances (s : List TrajectPoint) : List ℝ :=
  (pairsOf s).map (fun pq =>
    calculateDistance pq.1.latitude pq.1.longitude pq.2.latitude pq.2.longitude)

/-- Per-step bearings of the (smoothed) trajectory. -/
noncomputable def stepBearings (s : List TrajectPoint) : List ℝ :=
  (pairsOf s).map (fun pq =>
    calculateBearing pq.1.latitude pq.1.longitude pq.2.latitude pq.2.longitude)

open Classical in
/-- Count of significant direction changes (`bearing_diff > 45` between
consecutive per-step bearings). -/
noncomputable def directionChanges (s : List TrajectPoint) : ℕ :=
  (pairsOf (stepBearings s)).countP (fun ab => decide (45 < bearingDiff ab.1 ab.2))

/-- Per-step accelerations: the code only records them from the second step on
(`if i > 1`), and only when the step duration is positive. -/
def accelerationsOf (s : List TrajectPoint) : List ℚ :=
  (pairsOf s.tail).filterMap (fun pq =>
    let td := pq.2.timestamp - pq.1.timestamp
    if 0 < td then some ((pq.2.vitesse - pq.1.vitesse) / td) else none)

/-- Count of near-stop samples (`vitesse < 5`) of the smoothed trajectory. -/
def stopCountOf (s : List TrajectPoint) : ℕ :=
  s.countP (fun p => decide (p.vitesse < 5))

/-- Night samples of the original trajectory (`hour < 6 or hour > 22`). -/
def nightCountOf (traj : List TrajectPoint) : ℕ :=
  traj.countP (fun p => decide (tsHour p.timestamp < 6 ∨ 22 < tsHour p.timestamp))

/-- `TrajectoryFeatures` of `app/services/anomaly_detection.py`. The source
fields `out_of_bounds_ratio` and `night_travel_ratio` are embedded as
`out_of_bounds_rate` and `night_travel_rate`. The `anomaly_indicators` dict
is embedded as an association list in insertion order. -/
structure TrajectoryFeatures where
  mission_id : ℤ
  total_distance : ℝ
  average_speed : ℚ
  max_speed : ℚ
  min_speed : ℚ
  speed_variance : ℚ
  total_duration : ℚ
  stop_count : ℕ
  direction_changes : ℕ
  acceleration_variance : ℚ
  path_efficiency : ℝ
  time_efficiency : ℝ
  out_of_bounds_rate : ℚ
  night_travel_rate : ℚ
  speed_violations : ℕ
  anomaly_indicators : List (String × ℝ)

/-- Speed sequence of the smoothed trajectory. -/
def speedsOf (traj : List TrajectPoint) : List ℚ :=
  (smoothTrajectory traj).map TrajectPoint.vitesse

/-- Cumulative great-circle distance along the smoothed trajectory. -/
noncomputable def totalDistanceOf (traj : List TrajectPoint) : ℝ :=
  rSum (stepDistances (smoothTrajectory traj))

/-- `np.mean(speeds) if speeds else 0`. -/
def avgSpeedOf (traj : List TrajectPoint) : ℚ :=
  if (speedsOf traj).isEmpty then 0 else listMean (speedsOf traj)

/-- `np.max(speeds) if speeds else 0`. -/
def maxSpeedOf (traj : List TrajectPoint) : ℚ :=
  if (speedsOf traj).isEmpty then 0 else listMax (speedsOf traj)

/-- `np.var(speeds) if speeds else 0`. -/
def speedVarOf (traj : List TrajectPoint) : ℚ :=
  if (speedsOf traj).isEmpty then 0 else listVar (speedsOf traj)

/-- `np.var(accelerations) if accelerations else 0`. -/
def accVarOf (traj : List TrajectPoint) : ℚ :=
  if (accelerationsOf (smoothTrajectory traj)).isEmpty then 0
  else listVar (accelerationsOf (smoothTrajectory traj))

/-- Elapsed seconds between the first and last original points. -/
def durationOf (traj : List TrajectPoint) : ℚ :=
  (traj.getLastD default).timestamp - (traj.headD default).timestamp

/-- Direct distance between the first and last original points. -/
noncomputable def directDistanceOf (traj : List TrajectPoint) : ℝ :=
  calculateDistance (traj.headD default).latitude (traj.headD default).longitude
    (traj.getLastD default).latitude (traj.getLastD default).longitude

open Classical in
/-- `direct_distance / total_distance if total_distance > 0 else 0`. -/
noncomputable def pathEfficiencyOf (traj : List TrajectPoint) : ℝ :=
  if 0 < totalDistanceOf traj then directDistanceOf traj / totalDistanceOf traj else 0

open Classical in
/-- `expected_time / total_duration if total_duration > 0 else 0`, with
`expected_time = total_distance / max(avg_speed, 1) * 3600`. -/
noncomputable def timeEfficiencyOf (traj : List TrajectPoint) : ℝ :=
  if 0 < durationOf traj then
    totalDistanceOf traj / ((max (avgSpeedOf traj) 1 : ℚ) : ℝ) * 3600 /
      ((durationOf traj : ℚ) : ℝ)
  else 0

/-- Fraction of original samples in night hours. -/
def nightRateOf (traj : List TrajectPoint) : ℚ :=
  (nightCountOf traj : ℚ) / (traj.length : ℚ)

/-- The features record the source builds for a nonempty trajectory. -/
noncomputable def featuresOf (traj : List TrajectPoint) : TrajectoryFeatures :=
  { mission_id := (traj.headD default).mission_id
    total_distance := totalDistanceOf traj
    average_speed := avgSpeedOf traj
    max_speed := maxSpeedOf traj
    min_speed := if (speedsOf traj).isEmpty then 0 else listMin (speedsOf traj)
    speed_variance := speedVarOf traj
    total_duration := durationOf traj
    stop_count := stopCountOf (smoothTrajectory traj)
    direction_changes := directionChanges (smoothTrajectory traj)
    acceleration_variance := accVarOf traj
    path_efficiency := pathEfficiencyOf traj
    time_efficiency := timeEfficiencyOf traj
    out_of_bounds_rate := 0
    night_travel_rate := nightRateOf traj
    speed_violations := (speedsOf traj).countP (fun v => decide (120 < v))
    anomaly_indicators :=
      [("speed_inconsistency", ((speedVarOf traj / max (avgSpeedOf traj) 1 : ℚ) : ℝ)),
       ("route_inefficiency", 1 - pathEfficiencyOf traj),
       ("excessive_stops",
        (((stopCountOf (smoothTrajectory traj) : ℚ) / (traj.length : ℚ) : ℚ) : ℝ)),
       ("erratic_movement",
        (directionChanges (smoothTrajectory traj) : ℝ) / (traj.length : ℝ)),
       ("acceleration_anomaly", ((accVarOf traj : ℚ) : ℝ))] }

/-- `extract_trajectory_features`: `None` on an empty trajectory, otherwise
the statistics of the Savitzky–Golay-smoothed trajectory (duration, direct
distance and night counts use the original trajectory, as in the source). -/
noncomputable def extractTrajectoryFeatures (traj : List TrajectPoint) :
    Option TrajectoryFeatures :=
  if traj.isEmpty then none else some (featuresOf traj)

/-!
### Detection layers (`AnomalyDetectionService`)
-/

/-- `AnomalyScore` of `app/services/anomaly_detection.py`; the free-form
`details` dict, the wall-clock `timestamp` and the `affected_points` list are
logging payload and are not modelled. -/
structure AnomalyScore where
  anomaly_type : String
  score : ℝ
  confidence : ℝ
  severity : String

open Classical in
/-- `_detect_rule_based_anomalies`: four fixed-threshold rules, emitted in
source order. -/
noncomputable def detectRuleBasedAnomalies (f : TrajectoryFeatures)
    (traj : List TrajectPoint) : List AnomalyScore :=
  (if 150 < f.max_speed then
      [{ anomaly_type := "EXCESSIVE_SPEED",
         score := min ((f.max_speed : ℝ) / 200) 1,
         confidence := 0.9,
         severity := if 180 < f.max_speed then "CRITICAL" else "HIGH" }]
    else []) ++
  (if f.path_efficiency < 0.3 then
      [{ anomaly_type := "ROUTE_INEFFICIENCY",
         score := 1 - f.path_efficiency,
         confidence := 0.8,
         severity := if 0.1 < f.path_efficiency then "MEDIUM" else "HIGH" }]
    else []) ++
  (if 0.6 < f.night_travel_rate then
      [{ anomaly_type := "EXCESSIVE_NIGHT_TRAVEL",
         score := (f.night_travel_rate : ℝ),
         confidence := 0.7,
         severity := "MEDIUM" }]
    else []) ++
  (if 0.4 < (f.stop_count : ℚ) / (traj.length : ℚ) then
      [{ anomaly_type := "EXCESSIVE_STOPS",
         score := (((f.stop_count : ℚ) / (traj.length : ℚ) : ℚ) : ℝ),
         confidence := 0.8,
         severity := "MEDIUM" }]
    else [])

open Classical in
/-- `_analyze_speed_patterns`: fraction of consecutive speed changes exceeding
`mean + 2*std`, capped at 1. -/
noncomputable def analyzeSpeedPatterns (speeds : List ℚ) : ℝ :=
  if speeds.length < 3 then 0
  else
    let changes := (pairsOf speeds).map (fun ab => |ab.2 - ab.1|)
    let meanC := listMean changes
    let stdC : ℝ := Real.sqrt ((listVar changes : ℚ) : ℝ)
    let abnormal := changes.countP (fun c => decide ((meanC : ℝ) + 2 * stdC < (c : ℝ)))
    min ((abnormal : ℝ) / (changes.length : ℝ)) 1

open Classical in
/-- `_analyze_movement_patterns`: coefficient of variation of the per-step
distances, capped at 1. -/
noncomputable def analyzeMovementPatterns (traj : List TrajectPoint) : ℝ :=
  if traj.length < 4 then 0
  else
    let distances := stepDistances traj
    if 2 < distances.length then
      let m := rMean distances
      let s := rStd distances
      if 0 < m then min (s / m) 1 else 0
    else 0

open Classical in
/-- `_detect_pattern_anomalies`: speed-pattern and movement-pattern scores,
emitted when above their thresholds; empty for fewer than 5 points. -/
noncomputable def detectPatternAnomalies (traj : List TrajectPoint) : List AnomalyScore :=
  if traj.length < 5 then []
  else
    let sps := analyzeSpeedPatterns (traj.map TrajectPoint.vitesse)
    let mps := analyzeMovementPatterns traj
    (if 0.7 < sps then
        [{ anomaly_type := "ABNORMAL_SPEED_PATTERN", score := sps,
           confidence := 0.75, severity := "MEDIUM" }]
      else []) ++
    (if 0.6 < mps then
        [{ anomaly_type := "ABNORMAL_MOVEMENT_PATTERN", score := mps,
           confidence := 0.7, severity := "MEDIUM" }]
      else [])

open Classical in
/-- `_detect_temporal_anomalies`: per-gap `TEMPORAL_GAP` findings followed by
the night-hours check; empty for fewer than 2 points. -/
noncomputable def detectTemporalAnomalies (traj : List TrajectPoint) : List AnomalyScore :=
  if traj.length < 2 then []
  else
    let intervals := (pairsOf traj).map (fun pq => pq.2.timestamp - pq.1.timestamp)
    let meanI := listMean intervals
    let stdI : ℝ := Real.sqrt ((listVar intervals : ℚ) : ℝ)
    (intervals.filterMap (fun iv =>
      if (meanI : ℝ) + 3 * stdI < (iv : ℝ) ∧ 3600 < iv then
        some { anomaly_type := "TEMPORAL_GAP",
               score := min ((iv : ℝ) / 7200) 1,
               confidence := 0.8,
               severity := if 7200 < iv then "HIGH" else "MEDIUM" }
      else none)) ++
    (if (traj.length : ℚ) * 0.7 < (nightCountOf traj : ℚ) then
        [{ anomaly_type := "OUT_OF_HOURS_MOVEMENT",
           score := (((nightCountOf traj : ℚ) / (traj.length : ℚ) : ℚ) : ℝ),
           confidence := 0.9,
           severity := "MEDIUM" }]
      else [])

/-- `detect_anomalies` with the isolation-forest layer abstracted as the list
of scores it contributes (the sklearn model itself is opaque binary state):
empty trajectory (or the impossible `None` features) yields `[]`, otherwise
the concatenation of the four layers in source order. -/
noncomputable def detectAnomalies (traj : List TrajectPoint)
    (modelLayer : List AnomalyScore) : List AnomalyScore :=
  if traj.isEmpty then []
  else
    match extractTrajectoryFeatures traj with
    | none => []
    | some f =>
        modelLayer ++ detectRuleBasedAnomalies f traj ++ detectPatternAnomalies traj
          ++ detectTemporalAnomalies traj

/-- The internal `try/except` of the pattern and temporal layers: a failing
layer contributes an empty list. -/
def catchToEmpty (r : Except Unit (List AnomalyScore)) : List AnomalyScore :=
  match r with
  | .ok l => l
  | .error _ => []

/-- Exception structure of `detect_anomalies`: the four layers abstracted as
fallible computations. The pattern and temporal layers catch their own
exceptions internally (`catchToEmpty`); an exception escaping the model or
rule layer reaches only the top-level `except`, which returns `[]`, discarding
everything. An empty trajectory returns `[]` before any layer runs. -/
def detectAnomaliesE (traj : List TrajectPoint)
    (modelLayer ruleLayer patternLayer temporalLayer : Except Unit (List AnomalyScore)) :
    List AnomalyScore :=
  if traj.isEmpty then []
  else
    match modelLayer with
    | .error _ => []
    | .ok ms =>
        match ruleLayer with
        | .error _ => []
        | .ok rs => ms ++ rs ++ catchToEmpty patternLayer ++ catchToEmpty temporalLayer

structure TrajetRow where
  id : ℕ
  mission_id : ℤ
  timestamp : ℚ
  latitude : ℚ
  longitude : ℚ
  vitesse : ℚ
deriving DecidableEq, Inhabited

structure AnomalieRow where
  mission_id : ℤ
  atype : String
  description : String
  dateDetection : ℚ
deriving DecidableEq, Inhabited

structure MissionRow where
  id : ℤ
  statut : String
  dateDebut : ℚ
  dateFin : ℚ
deriving DecidableEq, Inhabited

structure DB where
  missions : List MissionRow
  trajets : List TrajetRow
  anomalies : List AnomalieRow
  nextTrajetId : ℕ
deriving DecidableEq, Inhabited

/-- Mission ids having a `TRAJECTORY_CONTAMINATED` anomaly record (the
`contaminated_subquery` of the service). -/
def contaminatedMissionIds (db : DB) : List ℤ :=
  (db.anomalies.filter (fun a => a.atype = "TRAJECTORY_CONTAMINATED")).map
    AnomalieRow.mission_id

/-- `ORDER BY mission_id, timestamp` as a stable insertion sort. -/
def trajetLE (p q : TrajetRow) : Bool :=
  decide (p.mission_id < q.mission_id ∨
    (p.mission_id = q.mission_id ∧ p.timestamp ≤ q.timestamp))

def insertTrajet (p : TrajetRow) : List TrajetRow → List TrajetRow
  | [] => [p]
  | q :: t => if trajetLE p q then p :: q :: t else q :: insertTrajet p t

def sortTrajets (l : List TrajetRow) : List TrajetRow := l.foldr insertTrajet []

/-- `AnomalyInjectionService.get_clean_trajectories`: rows of the requested
mission (all missions when the Python-falsy id 0 is passed), excluding
missions carrying the contamination sentinel, ordered by timestamp, joined
with their mission for the mission window (rows whose mission is missing are
skipped with a warning). -/
def getCleanTrajectories (db : DB) (mission_id : ℤ) : List TrajectPoint :=
  (sortTrajets (((if mission_id ≠ 0 then
      db.trajets.filter (fun r => r.mission_id = mission_id)
    else db.trajets)).filter
      (fun r => ¬ r.mission_id ∈ contaminatedMissionIds db))).filterMap (fun r =>
    match db.missions.find? (fun m => m.id = r.mission_id) with
    | none => none
    | some m =>
        some { id := some r.id, mission_id := r.mission_id, timestamp := r.timestamp,
               latitude := r.latitude, longitude := r.longitude, vitesse := r.vitesse,
               mission_start := m.dateDebut, mission_end := m.dateFin })

/-!
### Anomaly configuration (`app/services/anomaly.py`)
-/

inductive AnomalyType where
  | retour_premature
  | trajet_divergent
  | arret_non_autorise
  | vitesse_anormale
  | deplacement_hors_heures
  | sortie_zone_autorisee
deriving DecidableEq, Inhabited

def AnomalyType.value : AnomalyType → String
  | .retour_premature => "retour_premature"
  | .trajet_divergent => "trajet_divergent"
  | .arret_non_autorise => "arret_non_autorise"
  | .vitesse_anormale => "vitesse_anormale"
  | .deplacement_hors_heures => "deplacement_hors_heures"
  | .sortie_zone_autorisee => "sortie_zone_autorisee"

/-- `AnomalyRule`: per-kind probability, severity range and named numeric
parameter ranges. -/
structure AnomalyRule where
  probability : ℚ
  severity_range : ℚ × ℚ
  parameters : List (String × (ℚ × ℚ))
deriving DecidableEq, Inhabited

/-- Range lookup in a rule's parameter dict. -/
def AnomalyRule.paramRange (r : AnomalyRule) (name : String) : ℚ × ℚ :=
  (r.parameters.lookup name).getD (0, 0)

/-- `AnomalyConfig` (only the fields the injection flow reads). -/
structure AnomalyConfig where
  injection_probability : ℚ
  anomaly_types : List (AnomalyType × AnomalyRule)
deriving DecidableEq, Inhabited

/-- Default rule for `RETOUR_PREMATURE`. -/
def retourRule : AnomalyRule :=
  { probability := 0.15, severity_range := (0.6, 0.9),
    parameters := [("early_return_ratio", (0.3, 0.7)),
                   ("detour_distance_km", (5, 15))] }

/-- Default rule for `TRAJET_DIVERGENT`. -/
def divergentRule : AnomalyRule :=
  { probability := 0.25, severity_range := (0.4, 0.8),
    parameters := [("deviation_distance_km", (2, 10)),
                   ("deviation_duration_min", (15, 60))] }

/-- Default rule for `ARRET_NON_AUTORISE`. -/
def arretRule : AnomalyRule :=
  { probability := 0.20, severity_range := (0.3, 0.7),
    parameters := [("stop_duration_min", (10, 120)),
                   ("stop_frequency", (1, 3))] }

/-- Default rule for `VITESSE_ANORMALE`. -/
def vitesseRule : AnomalyRule :=
  { probability := 0.30, severity_range := (0.2, 0.6),
    parameters := [("speed_factor", (0.1, 2.5)),
                   ("duration_min", (5, 30))] }

/-- Default rule for `DEPLACEMENT_HORS_HEURES`. -/
def horsHeuresRule : AnomalyRule :=
  { probability := 0.10, severity_range := (0.5, 0.9),
    parameters := [("early_start_hours", (1, 3)),
                   ("late_end_hours", (1, 4))] }

/-- `_load_default_config`: dict iteration order is insertion order. -/
def defaultConfig : AnomalyConfig :=
  { injection_probability := 1
    anomaly_types :=
      [(.retour_premature, retourRule),
       (.trajet_divergent, divergentRule),
       (.arret_non_autorise, arretRule),
       (.vitesse_anormale, vitesseRule),
       (.deplacement_hors_heures, horsHeuresRule)] }

/-- `_validate_trajectory`: nonempty with all coordinates in GPS range. -/
def validateTrajectory (traj : List TrajectPoint) : Bool :=
  !traj.isEmpty && traj.all (fun p =>
    decide (-90 ≤ p.latitude ∧ p.latitude ≤ 90 ∧
            -180 ≤ p.longitude ∧ p.longitude ≤ 180))

def inRange (q : ℚ) (r : ℚ × ℚ) : Prop := r.1 ≤ q ∧ q ≤ r.2

/-!
### The five injection transforms

Each transform takes the values its `random.*` calls would draw as an explicit
draw record; the `Valid` predicate of a draw record states the support of each
distribution, reading the parameter ranges from the rule exactly as the code
does.
-/

structure EarlyReturnDraws where
  earlyRet : ℚ
  detourDist : ℚ
  detourLat : ℕ → ℚ
  detourLon : ℕ → ℚ
  retSpeed : ℕ → ℚ

def EarlyReturnDraws.Valid (d : EarlyReturnDraws) (rule : AnomalyRule) : Prop :=
  inRange d.earlyRet (rule.paramRange "early_return_ratio") ∧
  inRange d.detourDist (rule.paramRange "detour_distance_km") ∧
  (∀ i, inRange (d.detourLat i) (-0.001, 0.001)) ∧
  (∀ i, inRange (d.detourLon i) (-0.001, 0.001)) ∧
  (∀ i, inRange (d.retSpeed i) (20, 60))

/-- `_inject_early_return_anomaly`. The drawn `detour_distance` is unused by
the source after being drawn. -/
def injectEarlyReturn (traj : List TrajectPoint) (d : EarlyReturnDraws) :
    List TrajectPoint :=
  if ¬(validateTrajectory traj) ∨ traj.length < 10 then traj
  else
    let return_index := pyIntNat ((traj.length : ℚ) * d.earlyRet)
    let return_point := traj.getD return_index default
    let start_point := traj.headD default
    let return_duration := (return_point.mission_end - return_point.timestamp) / 2
    let num := max 5 (pyIntNat (return_duration / 300))
    traj.take return_index ++ (List.range num).map (fun (i : ℕ) =>
      let progress := (i : ℚ) / (num : ℚ)
      { id := none
        mission_id := return_point.mission_id
        timestamp := return_point.timestamp + (i : ℚ) * (return_duration / (num : ℚ))
        latitude := return_point.latitude +
          (start_point.latitude - return_point.latitude) * progress + d.detourLat i
        longitude := return_point.longitude +
          (start_point.longitude - return_point.longitude) * progress + d.detourLon i
        vitesse := d.retSpeed i
        mission_start := return_point.mission_start
        mission_end := return_point.mission_end })

structure RouteDeviationDraws where
  devDist : ℚ
  devDur : ℚ
  startIdx : ℕ
  cosA : ℕ → ℚ
  sinA : ℕ → ℚ
  distFactor : ℕ → ℚ
  devSpeed : ℕ → ℚ

/-- `cosA i`/`sinA i` stand for the cosine and sine of the angle drawn
uniformly on `[0, 2*3.14159]`; their support is over-approximated by
`[-1, 1]`, which is sound for universally quantified draw hypotheses. -/
def RouteDeviationDraws.Valid (d : RouteDeviationDraws) (rule : AnomalyRule)
    (n : ℕ) : Prop :=
  inRange d.devDist (rule.paramRange "deviation_distance_km") ∧
  inRange d.devDur (rule.paramRange "deviation_duration_min") ∧
  n / 4 ≤ d.startIdx ∧ d.startIdx ≤ 3 * n / 4 ∧
  (∀ i, inRange (d.cosA i) (-1, 1)) ∧
  (∀ i, inRange (d.sinA i) (-1, 1)) ∧
  (∀ i, inRange (d.distFactor i) (0.5, 1)) ∧
  (∀ i, inRange (d.devSpeed i) (15, 45))

/-- `_inject_route_deviation_anomaly`. -/
def injectRouteDeviation (traj : List TrajectPoint) (d : RouteDeviationDraws) :
    List TrajectPoint :=
  if ¬(validateTrajectory traj) ∨ traj.length < 6 then traj
  else
    let deviation_start := traj.getD d.startIdx default
    let num := max 3 (pyIntNat (d.devDur / 5))
    let resume_index := min (d.startIdx + num) (traj.length - 1)
    traj.take d.startIdx ++ (List.range num).map (fun (i : ℕ) =>
      { id := none
        mission_id := deviation_start.mission_id
        timestamp := deviation_start.timestamp + (i : ℚ) * 5 * 60
        latitude := deviation_start.latitude +
          d.devDist * d.distFactor i * d.cosA i / 111
        longitude := deviation_start.longitude +
          d.devDist * d.distFactor i * d.sinA i / 111
        vitesse := d.devSpeed i
        mission_start := deviation_start.mission_start
        mission_end := deviation_start.mission_end }) ++ traj.drop resume_index

structure UnauthorizedStopDraws where
  stopDur : ℚ
  stopFreq : ℕ
  stopIdx : ℕ → ℕ
  jLat : ℕ → ℕ → ℚ
  jLon : ℕ → ℕ → ℚ
  stopSpd : ℕ → ℕ → ℚ

def UnauthorizedStopDraws.Valid (d : UnauthorizedStopDraws) (rule : AnomalyRule)
    (n : ℕ) : Prop :=
  inRange d.stopDur (rule.paramRange "stop_duration_min") ∧
  (rule.paramRange "stop_frequency").1 ≤ (d.stopFreq : ℚ) ∧
  (d.stopFreq : ℚ) ≤ (rule.paramRange "stop_frequency").2 ∧
  (∀ k, n / 4 ≤ d.stopIdx k ∧ d.stopIdx k ≤ 3 * n / 4) ∧
  (∀ k i, inRange (d.jLat k i) (-0.001, 0.001)) ∧
  (∀ k i, inRange (d.jLon k i) (-0.001, 0.001)) ∧
  (∀ k i, inRange (d.stopSpd k i) (0, 2))

/-- `_inject_unauthorized_stop_anomaly`: stop points are inserted into the
accumulating list; the stop anchor point is read from the original list. -/
def injectUnauthorizedStop (traj : List TrajectPoint) (d : UnauthorizedStopDraws) :
    List TrajectPoint :=
  if ¬(validateTrajectory traj) ∨ traj.length < 5 then traj
  else
    let num := max 2 (pyIntNat (d.stopDur / 10))
    (List.range d.stopFreq).foldl (fun acc k =>
      let stop_index := d.stopIdx k
      let stop_point := traj.getD stop_index default
      (List.range num).foldl (fun acc2 (i : ℕ) =>
        acc2.insertIdx (stop_index + i + 1)
          { id := none
            mission_id := stop_point.mission_id
            timestamp := stop_point.timestamp + (i : ℚ) * 10 * 60
            latitude := stop_point.latitude + d.jLat k i
            longitude := stop_point.longitude + d.jLon k i
            vitesse := d.stopSpd k i
            mission_start := stop_point.mission_start
            mission_end := stop_point.mission_end }) acc) traj

structure AbnormalSpeedDraws where
  factor : ℚ
  durMin : ℚ
  startIdx : ℕ

def AbnormalSpeedDraws.Valid (d : AbnormalSpeedDraws) (rule : AnomalyRule)
    (n : ℕ) : Prop :=
  inRange d.factor (rule.paramRange "speed_factor") ∧
  inRange d.durMin (rule.paramRange "duration_min") ∧
  d.startIdx ≤ n / 2

/-- `_inject_abnormal_speed_anomaly`: speeds in the window
`[startIdx, end_index)` are scaled and clamped to `[0, 150]`; the window never
reaches past `len - 1`. -/
def injectAbnormalSpeed (traj : List TrajectPoint) (d : AbnormalSpeedDraws) :
    List TrajectPoint :=
  if ¬(validateTrajectory traj) ∨ traj.length < 3 then traj
  else
    let end_index := min (d.startIdx + pyIntNat (d.durMin / 5)) (traj.length - 1)
    (List.range traj.length).map (fun i =>
      let p := traj.getD i default
      if d.startIdx ≤ i ∧ i < end_index then
        { p with vitesse := max 0 (min 150 (p.vitesse * d.factor)) }
      else p)

structure OutOfHoursDraws where
  earlyH : ℚ
  lateH : ℚ
  earlyJLat : ℕ → ℚ
  earlyJLon : ℕ → ℚ
  earlySpd : ℕ → ℚ
  lateJLat : ℕ → ℚ
  lateJLon : ℕ → ℚ
  lateSpd : ℕ → ℚ

def OutOfHoursDraws.Valid (d : OutOfHoursDraws) (rule : AnomalyRule) : Prop :=
  inRange d.earlyH (rule.paramRange "early_start_hours") ∧
  inRange d.lateH (rule.paramRange "late_end_hours") ∧
  (∀ i, inRange (d.earlyJLat i) (-0.01, 0.01)) ∧
  (∀ i, inRange (d.earlyJLon i) (-0.01, 0.01)) ∧
  (∀ i, inRange (d.earlySpd i) (10, 30)) ∧
  (∀ i, inRange (d.lateJLat i) (-0.01, 0.01)) ∧
  (∀ i, inRange (d.lateJLon i) (-0.01, 0.01)) ∧
  (∀ i, inRange (d.lateSpd i) (10, 25))

/-- `_inject_out_of_hours_anomaly`: early points are inserted one by one at
position 0 (so they end up in reverse generation order); late points are
appended, spaced from `mission_end` itself. -/
def injectOutOfHours (traj : List TrajectPoint) (d : OutOfHoursDraws) :
    List TrajectPoint :=
  if ¬(validateTrajectory traj) ∨ traj.length < 2 then traj
  else
    let p0 := traj.headD default
    let pLast := traj.getLastD default
    let early_start_time := p0.mission_start - d.earlyH * 3600
    let numEarly := max 2 (pyIntNat (d.earlyH * 6))
    let numLate := max 2 (pyIntNat (d.lateH * 6))
    ((List.range numEarly).map (fun (i : ℕ) =>
      { id := none
        mission_id := p0.mission_id
        timestamp := early_start_time + (i : ℚ) * 10 * 60
        latitude := p0.latitude + d.earlyJLat i
        longitude := p0.longitude + d.earlyJLon i
        vitesse := d.earlySpd i
        mission_start := p0.mission_start
        mission_end := p0.mission_end })).reverse ++ traj ++
    (List.range numLate).map (fun (i : ℕ) =>
      { id := none
        mission_id := pLast.mission_id
        timestamp := pLast.mission_end + (i : ℚ) * 10 * 60
        latitude := pLast.latitude + d.lateJLat i
        longitude := pLast.longitude + d.lateJLon i
        vitesse := d.lateSpd i
        mission_start := pLast.mission_start
        mission_end := pLast.mission_end })

/-!
### Injection orchestration and persistence (`AnomalyInjectionService`)
-/

/-- `AnomalyInjectionResult` (the wall-clock `injection_timestamp` default is
not modelled). -/
structure AnomalyInjectionResult where
  mission_id : ℤ
  success : Bool
  anomalies_injected : List String
  original_points_count : ℕ
  modified_points_count : ℕ
  error_message : Option String
deriving DecidableEq, Inhabited

/-- All random draws of one `inject_anomalies_for_mission` call. -/
structure InjectDraws where
  gateRand : ℚ
  kindRand : AnomalyType → ℚ
  early : EarlyReturnDraws
  deviation : RouteDeviationDraws
  stops : UnauthorizedStopDraws
  speed : AbnormalSpeedDraws
  hours : OutOfHoursDraws

/-- The `if/elif` dispatch of the injection loop; `sortie_zone_autorisee` has
no branch in the source, so it leaves the trajectory unchanged. -/
def applyTransform (k : AnomalyType) (traj : List TrajectPoint) (d : InjectDraws) :
    List TrajectPoint :=
  match k with
  | .retour_premature => injectEarlyReturn traj d.early
  | .trajet_divergent => injectRouteDeviation traj d.deviation
  | .arret_non_autorise => injectUnauthorizedStop traj d.stops
  | .vitesse_anormale => injectAbnormalSpeed traj d.speed
  | .deplacement_hors_heures => injectOutOfHours traj d.hours
  | .sortie_zone_autorisee => traj

/-- One step of the injection loop: when the kind's probability draw
succeeds, apply its transform to the accumulating trajectory and append its
value to the injected list (appended even when the transform was a guarded
no-op, exactly as the source does). -/
def kindStep (d : InjectDraws) (acc : List TrajectPoint × List String)
    (kr : AnomalyType × AnomalyRule) : List TrajectPoint × List String :=
  if d.kindRand kr.1 ≤ kr.2.probability then
    (applyTransform kr.1 acc.1 d, acc.2 ++ [kr.1.value])
  else acc

/-- One step of the point walk of `_save_contaminated_trajectory`: insert a
point without id as a fresh row, update the row of a point that carries one. -/
def saveStep (acc : DB) (pt : TrajectPoint) : DB :=
  match pt.id with
  | none =>
      { acc with
        trajets := acc.trajets ++
          [{ id := acc.nextTrajetId, mission_id := pt.mission_id,
             timestamp := pt.timestamp, latitude := pt.latitude,
             longitude := pt.longitude, vitesse := pt.vitesse }]
        nextTrajetId := acc.nextTrajetId + 1 }
  | some pid =>
      { acc with
        trajets := acc.trajets.map (fun r =>
          if r.id = pid then
            { r with timestamp := pt.timestamp, latitude := pt.latitude,
                     longitude := pt.longitude, vitesse := pt.vitesse }
          else r) }

/-- `_save_contaminated_trajectory`: deletes the mission's `Trajet` rows only
when that mission is in the contaminated subquery, then walks the points,
inserting those without an id and updating by id those that carry one. On an
empty list the source raises `ValueError` (unreachable from the injection
flow, where the clean trajectory is nonempty); the state is returned
unchanged there. -/
def saveContaminatedTrajectory (db : DB) (points : List TrajectPoint) : DB :=
  match points with
  | [] => db
  | p0 :: _ =>
    points.foldl saveStep
      { db with
        trajets := db.trajets.filter (fun r =>
          ¬(r.mission_id = p0.mission_id ∧
            p0.mission_id ∈ contaminatedMissionIds db)) }

/-- Description text of the contamination sentinel. -/
def contaminationDescription (kinds : List String) : String :=
  "Trajectoire contaminée avec anomalies: " ++ String.intercalate ", " kinds

/-- `_mark_mission_as_contaminated`: delete existing sentinels of the mission,
then append a fresh one. -/
def markMissionAsContaminated (db : DB) (mission_id : ℤ) (kinds : List String)
    (now : ℚ) : DB :=
  { db with
    anomalies :=
      db.anomalies.filter (fun a =>
        ¬(a.mission_id = mission_id ∧ a.atype = "TRAJECTORY_CONTAMINATED")) ++
      [{ mission_id := mission_id, atype := "TRAJECTORY_CONTAMINATED",
         description := contaminationDescription kinds, dateDetection := now }]
  }

/-- The message of the `AnomalyInjectionResult` field validator
`validate_modified_points_count` (`app/schemas/anomaly.py`): constructing the
result raises `ValueError` when `modified_points_count` is below
`original_points_count`. The Python `str(e)` of the resulting pydantic
`ValidationError` wraps this text in framing lines; the embedding keeps the
validator's own message. -/
def validationErrorMessage : String :=
  "modified_points_count ne peut pas être inférieur à original_points_count"

/-- `inject_anomalies_for_mission`, returning the result together with the
database state after the call. The construction of `AnomalyInjectionResult`
runs the pydantic validator above: when the injected transforms shortened
the trajectory, the constructor raises after `_save_contaminated_trajectory`
and `_mark_mission_as_contaminated` have already committed, and the outer
`except` returns the failure record over the mutated database. -/
def injectAnomaliesForMission (db : DB) (config : AnomalyConfig) (mission_id : ℤ)
    (d : InjectDraws) (now : ℚ) : AnomalyInjectionResult × DB :=
  let traj := getCleanTrajectories db mission_id
  if traj.isEmpty then
    ({ mission_id := mission_id, success := false, anomalies_injected := [],
       original_points_count := 0, modified_points_count := 0,
       error_message := some "Aucune trajectoire propre trouvée" }, db)
  else
    let original := traj.length
    if config.injection_probability < d.gateRand then
      ({ mission_id := mission_id, success := true, anomalies_injected := [],
         original_points_count := original, modified_points_count := original,
         error_message := none }, db)
    else
      let res := config.anomaly_types.foldl (kindStep d) (traj, [])
      let db1 :=
        if res.2.isEmpty then db
        else markMissionAsContaminated (saveContaminatedTrajectory db res.1)
          mission_id res.2 now
      if res.1.length < original then
        ({ mission_id := mission_id, success := false, anomalies_injected := [],
           original_points_count := 0, modified_points_count := 0,
           error_message := some validationErrorMessage }, db1)
      else
        ({ mission_id := mission_id, success := true, anomalies_injected := res.2,
           original_points_count := original, modified_points_count := res.1.length,
           error_message := none }, db1)

/-- The injection loop's fold over the configured kinds: the modified
trajectory and the reported kind list. -/
def injectFold (db : DB) (config : AnomalyConfig) (mission_id : ℤ)
    (d : InjectDraws) : List TrajectPoint × List String :=
  config.anomaly_types.foldl (kindStep d) (getCleanTrajectories db mission_id, [])

/-- The kinds whose per-kind probability draw succeeds, in configuration
order. -/
def drawnKinds (config : AnomalyConfig) (d : InjectDraws) : List String :=
  (config.anomaly_types.filter (fun kr => d.kindRand kr.1 ≤ kr.2.probability)).map
    (fun kr => kr.1.value)

/-!
### Trajectory generator (`app/services/simulator_service.py`)
-/

/-- `MOROCCO_BOUNDS` of `app/core/config.py`. -/
def moroccoMinLat : ℚ := 27.6

def moroccoMaxLat : ℚ := 35.9

def moroccoMinLon : ℚ := -13.2

def moroccoMaxLon : ℚ := -1.0

/-- `MAJOR_CITIES.values()` of `app/core/config.py`, in dict order. -/
def majorCities : List (ℚ × ℚ) :=
  [(33.5731, -7.5898), (34.0209, -6.8416), (31.6295, -7.9811), (34.0181, -5.0078),
   (35.7595, -5.8340), (30.4278, -9.5981), (33.8935, -5.5473), (34.6814, -1.9086),
   (34.2610, -6.5802), (35.5889, -5.3626)]

/-- Lying inside the configured bounding box. -/
def inMoroccoBounds (lat lon : ℚ) : Prop :=
  moroccoMinLat ≤ lat ∧ lat ≤ moroccoMaxLat ∧ moroccoMinLon ≤ lon ∧ lon ≤ moroccoMaxLon

/-- Simulator mission (schema `app/schemas/simulator_schema.py: Mission`).
`trajet_predefini` holds the parsed predefined route: `parse_predefined_route`
turns the stored JSON text into a list of (latitude, longitude) pairs and
yields `[]` for an absent or unparseable route; the JSON decoding itself is
string processing and is embedded by its result. -/
structure SimMission where
  id : ℤ
  dateDebut : ℚ
  dateFin : ℚ
  trajet_predefini : List (ℚ × ℚ)
deriving DecidableEq, Inhabited

/-- Generated point (schema `app/schemas/simulator_schema.py: TrajectPoint`). -/
structure SimPoint where
  latitude : ℚ
  longitude : ℚ
  timestamp : ℚ
  vitesse : ℚ
  mission_id : ℤ
deriving DecidableEq, Inhabited

/-- All random draws of one `generate_trajectory_points` call. -/
structure GenDraws where
  numPoints : ℕ
  initSpeed : ℚ
  latVar : ℕ → ℚ
  lonVar : ℕ → ℚ
  speedVar : ℕ → ℚ
  stopDraw : ℕ → Bool
  stopSpeed : ℕ → ℚ
  startCity : ℚ × ℚ
  endCity : ℚ × ℚ
  wpJLat : ℕ → ℚ
  wpJLon : ℕ → ℚ

/-- Support of each draw: `randint(20,50)`, `uniform(30,60)`, per-sample
jitters `uniform(-0.005,0.005)`, speed steps `uniform(-10,10)`, near-stop
speeds `uniform(0,5)`, waypoint jitters `uniform(-0.01,0.01)`, and the two
cities drawn from `MAJOR_CITIES` with distinct values. -/
def GenDraws.Valid (d : GenDraws) : Prop :=
  20 ≤ d.numPoints ∧ d.numPoints ≤ 50 ∧
  inRange d.initSpeed (30, 60) ∧
  (∀ i, inRange (d.latVar i) (-0.005, 0.005)) ∧
  (∀ i, inRange (d.lonVar i) (-0.005, 0.005)) ∧
  (∀ i, inRange (d.speedVar i) (-10, 10)) ∧
  (∀ i, inRange (d.stopSpeed i) (0, 5)) ∧
  (∀ i, inRange (d.wpJLat i) (-0.01, 0.01)) ∧
  (∀ i, inRange (d.wpJLon i) (-0.01, 0.01)) ∧
  d.startCity ∈ majorCities ∧ d.endCity ∈ majorCities ∧ d.endCity ≠ d.startCity

/-- Clamp to a closed interval, as `max(lo, min(hi, x))`. -/
def clampQ (lo hi x : ℚ) : ℚ := max lo (min hi x)

/-- `generate_route_waypoints`: linear interpolation between the two
endpoints with jitter, clamped to the bounding box. -/
def generateRouteWaypoints (startP endP : ℚ × ℚ) (num : ℕ) (d : GenDraws) :
    List (ℚ × ℚ) :=
  (List.range num).map (fun (i : ℕ) =>
    let t := (i : ℚ) / ((num : ℚ) - 1)
    let lat := startP.1 + (endP.1 - startP.1) * t + d.wpJLat i
    let lon := startP.2 + (endP.2 - startP.2) * t + d.wpJLon i
    (clampQ moroccoMinLat moroccoMaxLat lat, clampQ moroccoMinLon moroccoMaxLon lon))

/-- Terrain classification of `generate_trajectory_points`: urban when within
20 km of one of the reference cities. -/
def isUrban (lat lon : ℚ) : Prop :=
  ∃ c ∈ majorCities, calculateDistance lat lon c.1 c.2 < 20

open Classical in
/-- `generate_realistic_speed`: bounded random walk over the terrain band
(urban 20–50, rural 40–80), a 10% chance of a near stop, rounded to one
decimal. -/
noncomputable def generateRealisticSpeed (prev : ℚ) (urban : Prop) (i : ℕ)
    (d : GenDraws) : ℚ :=
  let band : ℚ × ℚ := if urban then (20, 50) else (40, 80)
  let ns := max band.1 (min band.2 (prev + d.speedVar i))
  round1 (if d.stopDraw i then d.stopSpeed i else ns)

/-- Waypoint selected for sample `i`:
`waypoints[min(int(i/num_points * len(waypoints)), len(waypoints)-1)]`. -/
def genBasePos (wps : List (ℚ × ℚ)) (n : ℕ) (i : ℕ) : ℚ × ℚ :=
  wps.getD (min (pyIntNat ((i : ℚ) / (n : ℚ) * (wps.length : ℚ))) (wps.length - 1))
    (0, 0)

/-- Latitude of sample `i` (waypoint plus jitter). -/
def genLat (d : GenDraws) (wps : List (ℚ × ℚ)) (i : ℕ) : ℚ :=
  (genBasePos wps d.numPoints i).1 + d.latVar i

/-- Longitude of sample `i` (waypoint plus jitter). -/
def genLon (d : GenDraws) (wps : List (ℚ × ℚ)) (i : ℕ) : ℚ :=
  (genBasePos wps d.numPoints i).2 + d.lonVar i

/-- The `current_speed` loop state of `generate_trajectory_points` as a
primitive recursion: the speed stored on sample `i`. -/
noncomputable def genSpeed (d : GenDraws) (wps : List (ℚ × ℚ)) : ℕ → ℚ
  | 0 => generateRealisticSpeed d.initSpeed (isUrban (genLat d wps 0) (genLon d wps 0)) 0 d
  | i + 1 => generateRealisticSpeed (genSpeed d wps i)
      (isUrban (genLat d wps (i+1)) (genLon d wps (i+1))) (i+1) d

/-- The waypoint list of `generate_trajectory_points`: the parsed predefined
route when one exists, otherwise 8 interpolated waypoints between the two
drawn cities. -/
def genWaypoints (m : SimMission) (d : GenDraws) : List (ℚ × ℚ) :=
  if m.trajet_predefini ≠ [] then m.trajet_predefini
  else generateRouteWaypoints d.startCity d.endCity 8 d

/-- `mission_duration` with the 2-hour fallback for a non-positive window. -/
def genDuration (m : SimMission) : ℚ :=
  if m.dateFin - m.dateDebut ≤ 0 then 7200 else m.dateFin - m.dateDebut

/-- `time_interval = mission_duration / num_points`. -/
def genInterval (m : SimMission) (d : GenDraws) : ℚ :=
  genDuration m / (d.numPoints : ℚ)

/-- The point built on loop iteration `i` of `generate_trajectory_points`:
the loop state there advances as `current_time = dateDebut + i * interval`
and `current_speed = genSpeed i`. -/
noncomputable def genPointAt (m : SimMission) (d : GenDraws) (i : ℕ) : SimPoint :=
  { latitude := genLat d (genWaypoints m d) i
    longitude := genLon d (genWaypoints m d) i
    timestamp := m.dateDebut + (i : ℚ) * genInterval m d
    vitesse := genSpeed d (genWaypoints m d) i
    mission_id := m.id }

/-- `generate_trajectory_points`: one point per loop iteration. -/
noncomputable def generateTrajectoryPoints (m : SimMission) (d : GenDraws) :
    List SimPoint :=
  (List.range d.numPoints).map (genPointAt m d)

/-!
### Orchestrator (`app/services/anomaly_simulation_orchestrator.py`)

`run_full_simulation_cycle` wraps the whole per-mission `for` loop in a single
`try/except/finally`: there is no per-mission handler. The per-mission body
(generate, persist, inject, re-read, detect, publish) is abstracted as a
fallible computation producing the list of status events it publishes; the
non-raising failure branches of the body (save failure, empty trajectory),
which publish a status and `continue`, are part of that abstraction's `ok`
outcome.
-/

/-- A `send_mission_status` publication. -/
structure StatusEvent where
  mission_id : ℤ
  status : String
deriving DecidableEq, Inhabited

/-- The loop of `run_full_simulation_cycle`: events of each mission in order;
the first exception is caught by the cycle-level handler, which logs it and
falls directly to `finally`, publishing nothing further. -/
def cycleLoop (processMission : SimMission → Except Unit (List StatusEvent)) :
    List SimMission → List StatusEvent
  | [] => []
  | m :: rest =>
    match processMission m with
    | .ok evs => evs ++ cycleLoop processMission rest
    | .error _ => []

/-- `run_full_simulation_cycle`: the status events published by one pass over
the given active missions. -/
def runFullSimulationCycle (missions : List SimMission)
    (processMission : SimMission → Except Unit (List StatusEvent)) :
    List StatusEvent :=
  cycleLoop processMission missions

/-- Events of a successful per-mission body, `[]` for a raising one. -/
def okOrEmpty (r : Except Unit (List StatusEvent)) : List StatusEvent :=
  match r with
  | .ok evs => evs
  | .error _ => []

/-!
### Concrete instances used by counterexamples and witnesses
-/

/-- Early-return draws: cutoff one half, zero detour jitter, return speed 30. -/
def earlyD1 : EarlyReturnDraws :=
  { earlyRet := 1/2, detourDist := 5,
    detourLat := fun _ => 0, detourLon := fun _ => 0, retSpeed := fun _ => 30 }

def devD0 : RouteDeviationDraws :=
  { devDist := 2, devDur := 15, startIdx := 0, cosA := fun _ => 1,
    sinA := fun _ => 0, distFactor := fun _ => 1/2, devSpeed := fun _ => 20 }

def stopD0 : UnauthorizedStopDraws :=
  { stopDur := 10, stopFreq := 1, stopIdx := fun _ => 1,
    jLat := fun _ _ => 0, jLon := fun _ _ => 0, stopSpd := fun _ _ => 1 }

def spdD0 : AbnormalSpeedDraws := { factor := 1, durMin := 5, startIdx := 0 }

def hrsD0 : OutOfHoursDraws :=
  { earlyH := 1, lateH := 1, earlyJLat := fun _ => 0, earlyJLon := fun _ => 0,
    earlySpd := fun _ => 10, lateJLat := fun _ => 0, lateJLon := fun _ => 0,
    lateSpd := fun _ => 10 }

/-- Draws where the global gate passes and only `RETOUR_PREMATURE` is drawn. -/
def d1cex : InjectDraws :=
  { gateRand := 0,
    kindRand := fun k => if k = .retour_premature then 0 else 9/10,
    early := earlyD1, deviation := devD0, stops := stopD0,
    speed := spdD0, hours := hrsD0 }

/-- One active mission with 10 stored trajectory points, 1 s apart. -/
def db1cex : DB :=
  { missions := [{ id := 1, statut := "EN_COURS", dateDebut := 0, dateFin := 600 }]
    trajets := [{ id := 1, mission_id := 1, timestamp := 0, latitude := 0, longitude := 0, vitesse := 50 },
                { id := 2, mission_id := 1, timestamp := 1, latitude := 0, longitude := 0, vitesse := 50 },
                { id := 3, mission_id := 1, timestamp := 2, latitude := 0, longitude := 0, vitesse := 50 },
                { id := 4, mission_id := 1, timestamp := 3, latitude := 0, longitude := 0, vitesse := 50 },
                { id := 5, mission_id := 1, timestamp := 4, latitude := 0, longitude := 0, vitesse := 50 },
                { id := 6, mission_id := 1, timestamp := 5, latitude := 0, longitude := 0, vitesse := 50 },
                { id := 7, mission_id := 1, timestamp := 6, latitude := 0, longitude := 0, vitesse := 50 },
                { id := 8, mission_id := 1, timestamp := 7, latitude := 0, longitude := 0, vitesse := 50 },
                { id := 9, mission_id := 1, timestamp := 8, latitude := 0, longitude := 0, vitesse := 50 },
                { id := 10, mission_id := 1, timestamp := 9, latitude := 0, longitude := 0, vitesse := 50 }]
    anomalies := []
    nextTrajetId := 11 }

/-- The clean trajectory points `get_clean_trajectories` reads from
`db1cex` for mission 1. -/
def pts1cex : List TrajectPoint :=
  [{ id := some 1, mission_id := 1, timestamp := 0, latitude := 0, longitude := 0,
     vitesse := 50, mission_start := 0, mission_end := 600 },
   { id := some 2, mission_id := 1, timestamp := 1, latitude := 0, longitude := 0,
     vitesse := 50, mission_start := 0, mission_end := 600 },
   { id := some 3, mission_id := 1, timestamp := 2, latitude := 0, longitude := 0,
     vitesse := 50, mission_start := 0, mission_end := 600 },
   { id := some 4, mission_id := 1, timestamp := 3, latitude := 0, longitude := 0,
     vitesse := 50, mission_start := 0, mission_end := 600 },
   { id := some 5, mission_id := 1, timestamp := 4, latitude := 0, longitude := 0,
     vitesse := 50, mission_start := 0, mission_end := 600 },
   { id := some 6, mission_id := 1, timestamp := 5, latitude := 0, longitude := 0,
     vitesse := 50, mission_start := 0, mission_end := 600 },
   { id := some 7, mission_id := 1, timestamp := 6, latitude := 0, longitude := 0,
     vitesse := 50, mission_start := 0, mission_end := 600 },
   { id := some 8, mission_id := 1, timestamp := 7, latitude := 0, longitude := 0,
     vitesse := 50, mission_start := 0, mission_end := 600 },
   { id := some 9, mission_id := 1, timestamp := 8, latitude := 0, longitude := 0,
     vitesse := 50, mission_start := 0, mission_end := 600 },
   { id := some 10, mission_id := 1, timestamp := 9, latitude := 0, longitude := 0,
     vitesse := 50, mission_start := 0, mission_end := 600 }]

/-- One active mission with only 3 stored trajectory points (too short for the
early-return transform). -/
def db4cex : DB :=
  { missions := [{ id := 1, statut := "EN_COURS", dateDebut := 0, dateFin := 7200 }]
    trajets := [{ id := 1, mission_id := 1, timestamp := 0,
                  latitude := 0, longitude := 0, vitesse := 40 },
                { id := 2, mission_id := 1, timestamp := 600,
                  latitude := 0, longitude := 0, vitesse := 40 },
                { id := 3, mission_id := 1, timestamp := 1200,
                  latitude := 0, longitude := 0, vitesse := 40 }]
    anomalies := []
    nextTrajetId := 4 }

/-- A mission already carrying the contamination sentinel. -/
def db10w : DB :=
  { missions := [{ id := 1, statut := "EN_COURS", dateDebut := 0, dateFin := 7200 }]
    trajets := [{ id := 1, mission_id := 1, timestamp := 0,
                  latitude := 0, longitude := 0, vitesse := 50 }]
    anomalies := [{ mission_id := 1, atype := "TRAJECTORY_CONTAMINATED",
                    description := "x", dateDetection := 0 }]
    nextTrajetId := 2 }

def pt2cex : TrajectPoint :=
  { id := none, mission_id := 1, timestamp := 0, latitude := 0, longitude := 0,
    vitesse := 10, mission_start := 0, mission_end := 3600 }

def sc2cex : AnomalyScore :=
  { anomaly_type := "ISOLATION_FOREST_ANOMALY", score := 1, confidence := 1,
    severity := "HIGH" }

/-- A single-sample trajectory at 200 km/h. -/
def pt201cex : TrajectPoint :=
  { id := none, mission_id := 1, timestamp := 43200, latitude := 0, longitude := 0,
    vitesse := 200, mission_start := 43200, mission_end := 50400 }

def m3a : SimMission := { id := 1, dateDebut := 0, dateFin := 3600, trajet_predefini := [] }

def m3b : SimMission := { id := 2, dateDebut := 0, dateFin := 3600, trajet_predefini := [] }

def ev3 : StatusEvent := { mission_id := 2, status := "TRAJECTORY_GENERATED" }

/-- Per-mission body that raises on mission 1 and publishes one status on any
other mission. -/
def proc3 (m : SimMission) : Except Unit (List StatusEvent) :=
  if m.id = 1 then .error () else .ok [ev3]

def m5w : SimMission := { id := 1, dateDebut := 0, dateFin := 7200, trajet_predefini := [] }

/-- Valid generator draws: 20 samples, no jitter, no stops. -/
def d5w : GenDraws :=
  { numPoints := 20, initSpeed := 30,
    latVar := fun _ => 0, lonVar := fun _ => 0, speedVar := fun _ => 0,
    stopDraw := fun _ => false, stopSpeed := fun _ => 0,
    startCity := (33.5731, -7.5898), endCity := (34.0209, -6.8416),
    wpJLat := fun _ => 0, wpJLon := fun _ => 0 }

/-- A mission whose predefined route lies outside the bounding box. -/
def m6cex : SimMission :=
  { id := 3, dateDebut := 0, dateFin := 7200, trajet_predefini := [(60, 10)] }

def pts4cex : List TrajectPoint :=
  [{ id := some 1, mission_id := 1, timestamp := 0, latitude := 0, longitude := 0,
     vitesse := 40, mission_start := 0, mission_end := 7200 },
   { id := some 2, mission_id := 1, timestamp := 600, latitude := 0, longitude := 0,
     vitesse := 40, mission_start := 0, mission_end := 7200 },
   { id := some 3, mission_id := 1, timestamp := 1200, latitude := 0, longitude := 0,
     vitesse := 40, mission_start := 0, mission_end := 7200 }]

/-! ### Theorems -/

/-- The closed-form fit satisfies the three least-squares normal equations of the
degree-2 fit on abscissas `-2..2`: residuals are orthogonal to `1`, `t`, `t^2`. -/
theorem fitEval_normal_equations (y0 y1 y2 y3 y4 : ℚ) :
    ((y0 - fitEval y0 y1 y2 y3 y4 (-2)) + (y1 - fitEval y0 y1 y2 y3 y4 (-1)) +
     (y2 - fitEval y0 y1 y2 y3 y4 0) + (y3 - fitEval y0 y1 y2 y3 y4 1) +
     (y4 - fitEval y0 y1 y2 y3 y4 2) = 0) ∧
    ((-2) * (y0 - fitEval y0 y1 y2 y3 y4 (-2)) + (-1) * (y1 - fitEval y0 y1 y2 y3 y4 (-1)) +
     1 * (y3 - fitEval y0 y1 y2 y3 y4 1) + 2 * (y4 - fitEval y0 y1 y2 y3 y4 2) = 0) ∧
    (4 * (y0 - fitEval y0 y1 y2 y3 y4 (-2)) + 1 * (y1 - fitEval y0 y1 y2 y3 y4 (-1)) +
     1 * (y3 - fitEval y0 y1 y2 y3 y4 1) + 4 * (y4 - fitEval y0 y1 y2 y3 y4 2) = 0) := by
  refine ⟨?_, ?_, ?_⟩ <;> · unfold fitEval fitC0 fitC1 fitC2; ring

theorem savgol52_length (ys : List ℚ) : (savgol52 ys).length = ys.length := by
  simp [savgol52]

/-- Consistency of the exception-structure view with the computed layers. -/
theorem detectAnomalies_eq_detectAnomaliesE (traj : List TrajectPoint)
    (modelLayer : List AnomalyScore) (f : TrajectoryFeatures)
    (hf : extractTrajectoryFeatures traj = some f) :
    detectAnomalies traj modelLayer =
      detectAnomaliesE traj (.ok modelLayer) (.ok (detectRuleBasedAnomalies f traj))
        (.ok (detectPatternAnomalies traj)) (.ok (detectTemporalAnomalies traj)) := by
  unfold detectAnomalies detectAnomaliesE
  have : ¬traj.isEmpty := by
    intro h
    rw [List.isEmpty_iff] at h
    subst h
    simp [extractTrajectoryFeatures] at hf
  simp only [this, if_false, hf, catchToEmpty]

/-!
### General lemmas
-/

theorem rat_floor_eq_floor (q : ℚ) : q.floor = ⌊q⌋ :=
  (Rat.floor_def' q).trans Rat.floor_def.symm

/-- `pyInt` is the floor on nonnegative and the ceiling on negative input. -/
theorem pyInt_eq_floor_ceil (q : ℚ) :
    pyInt q = if 0 ≤ q then ⌊q⌋ else ⌈q⌉ := by
  unfold pyInt
  split
  · exact rat_floor_eq_floor q
  · rw [rat_floor_eq_floor, Int.floor_neg, neg_neg]

theorem getD_map_range {α : Type} (f : ℕ → α) (n i : ℕ) (dflt : α) (h : i < n) :
    (((List.range n).map f).getD i dflt) = f i := by
  rw [List.getD_eq_getElem?_getD]
  simp [List.getElem?_map, List.getElem?_range, h]

/-!
### C2: fault tolerance of the detection layers
-/

/-- Claim C2 (corrected): the pattern and temporal layers are individually
fault-tolerant (a failure there is equivalent to an empty contribution), but
an exception escaping the model or rule layer reaches only the top-level
handler of `detect_anomalies`, which returns the empty list, discarding the
scores already collected and skipping the remaining layers; an empty
trajectory yields the empty list. -/
theorem detect_layers_fault_structure (traj : List TrajectPoint)
    (model rule pattern temporal : Except Unit (List AnomalyScore)) :
    detectAnomaliesE traj model rule (.error ()) temporal
      = detectAnomaliesE traj model rule (.ok []) temporal ∧
    detectAnomaliesE traj model rule pattern (.error ())
      = detectAnomaliesE traj model rule pattern (.ok []) ∧
    detectAnomaliesE traj model (.error ()) pattern temporal = [] ∧
    detectAnomaliesE traj (.error ()) rule pattern temporal = [] ∧
    detectAnomaliesE [] model rule pattern temporal = [] := by
  unfold detectAnomaliesE catchToEmpty
  refine ⟨?_, ?_, ?_, ?_, rfl⟩ <;>
    cases model <;> cases rule <;> cases pattern <;> cases temporal <;> simp

/-- The rule layer flags `EXCESSIVE_SPEED` exactly when the feature record's
`max_speed` exceeds 150, and then with severity `CRITICAL` above 180 and
`HIGH` otherwise. -/
theorem excessiveSpeed_mem_iff (f : TrajectoryFeatures) (traj : List TrajectPoint) :
    (∃ sc ∈ detectRuleBasedAnomalies f traj,
        sc.anomaly_type = "EXCESSIVE_SPEED" ∧
        sc.severity = if 180 < f.max_speed then "CRITICAL" else "HIGH") ↔
      150 < f.max_speed := by
  unfold detectRuleBasedAnomalies
  split_ifs with h1 h2 h3 h4 <;> simp_all

/-- Claim C2 as stated is false: with a model layer that already produced a
score and a rule layer that raises, `detect_anomalies` returns the empty
list — the collected score is discarded and the remaining layers never
contribute; moreover a single-point (too-short) trajectory at 200 km/h yields
a nonempty score list. -/
theorem detect_rule_exception_discards_scores :
    detectAnomaliesE [pt2cex] (.ok [sc2cex]) (.error ()) (.ok []) (.ok []) = [] ∧
    [sc2cex] ≠ ([] : List AnomalyScore) ∧
    ∃ sc ∈ detectAnomalies [pt201cex] [], sc.anomaly_type = "EXCESSIVE_SPEED" := by
  refine ⟨rfl, by simp, ?_⟩
  have hne : extractTrajectoryFeatures [pt201cex] = some (featuresOf [pt201cex]) := rfl
  have hmax : (150 : ℚ) < (featuresOf [pt201cex]).max_speed := by
    show (150 : ℚ) < maxSpeedOf [pt201cex]
    decide
  obtain ⟨sc, hmem, hty, _⟩ :=
    (excessiveSpeed_mem_iff (featuresOf [pt201cex]) [pt201cex]).mpr hmax
  refine ⟨sc, ?_, hty⟩
  unfold detectAnomalies
  rw [hne]
  simp only [List.isEmpty_cons, Bool.false_eq_true, if_false]
  simp [hmem]

/-!
### C3: per-mission exception handling of the orchestrator pass
-/

/-- Claim C3 (corrected): an exception in the per-mission body is caught only
by the single cycle-level handler, which ends the pass: the events of the
missions before the failing one are kept, no error status is published for
the failing mission, and the missions after it are not processed. -/
theorem cycleLoop_cons (proc : SimMission → Except Unit (List StatusEvent))
    (m : SimMission) (rest : List SimMission) :
    cycleLoop proc (m :: rest) =
      match proc m with
      | .ok evs => evs ++ cycleLoop proc rest
      | .error _ => [] := rfl

theorem cycle_stops_at_first_raising_mission (pre : List SimMission)
    (m : SimMission) (post : List SimMission)
    (proc : SimMission → Except Unit (List StatusEvent))
    (hok : ∀ m2 ∈ pre, ∃ evs, proc m2 = .ok evs)
    (herr : proc m = .error ()) :
    runFullSimulationCycle (pre ++ m :: post) proc =
      (pre.map (fun m2 => okOrEmpty (proc m2))).flatten := by
  unfold runFullSimulationCycle
  induction pre with
  | nil =>
      rw [List.nil_append, cycleLoop_cons, herr]
      rfl
  | cons p ps ih =>
      obtain ⟨evs, he⟩ := hok p (List.mem_cons_self p ps)
      have ih2 := ih (fun m2 hm2 => hok m2 (List.mem_cons_of_mem p hm2))
      rw [List.cons_append, cycleLoop_cons, he, List.map_cons, List.flatten_cons,
        ih2]
      simp [okOrEmpty, he]

/-- Claim C3 as stated is false: with two active missions where the first
raises, the pass publishes nothing at all — no error status for the failing
mission, and the second mission is never processed. -/
theorem cycle_counterexample_mission_exception :
    runFullSimulationCycle [m3a, m3b] proc3 = [] ∧
    proc3 m3a = .error () ∧
    proc3 m3b = .ok [ev3] ∧
    ev3 ∉ runFullSimulationCycle [m3a, m3b] proc3 := by
  refine ⟨rfl, rfl, rfl, ?_⟩
  intro h
  simp only [runFullSimulationCycle, cycleLoop, proc3, m3a] at h
  simp at h

/-- Witness for C3's corrected statement: one healthy mission before the
raising one keeps exactly its events. -/
theorem cycle_stops_witness :
    runFullSimulationCycle [m3b, m3a] proc3 =
      ([m3b].map (fun m2 => okOrEmpty (proc3 m2))).flatten :=
  cycle_stops_at_first_raising_mission [m3b] m3a [] proc3
    (fun m2 hm2 => ⟨[ev3], by
      have : m2 = m3b := by simpa using hm2
      rw [this]; rfl⟩)
    rfl

/-!
### C9: clamping of the abnormal-speed transform
-/

/-- Claim C10 (confirmed): a mission that already carries the contamination
sentinel yields no clean trajectory points, and `inject_anomalies_for_mission`
returns the failure result without touching the database. (`mid ≠ 0` reflects
that mission ids are positive autoincrement keys; the Python-falsy id 0 would
skip the per-mission filter.) -/
theorem inject_noop_on_contaminated (db : DB) (config : AnomalyConfig)
    (mid : ℤ) (d : InjectDraws) (now : ℚ) (hmid : mid ≠ 0)
    (hc : ∃ a ∈ db.anomalies,
      a.mission_id = mid ∧ a.atype = "TRAJECTORY_CONTAMINATED") :
    injectAnomaliesForMission db config mid d now =
      ({ mission_id := mid, success := false, anomalies_injected := [],
         original_points_count := 0, modified_points_count := 0,
         error_message := some "Aucune trajectoire propre trouvée" }, db) := by
  have hmem : mid ∈ contaminatedMissionIds db := by
    obtain ⟨a, ha, h1, h2⟩ := hc
    unfold contaminatedMissionIds
    exact List.mem_map.mpr ⟨a, List.mem_filter.mpr ⟨ha, by simp [h2]⟩, h1⟩
  have hclean : getCleanTrajectories db mid = [] := by
    unfold getCleanTrajectories
    rw [if_pos hmid]
    have hnil : (db.trajets.filter (fun r => r.mission_id = mid)).filter
        (fun r => ¬ r.mission_id ∈ contaminatedMissionIds db) = [] := by
      rw [List.filter_eq_nil_iff]
      intro r hr
      have hr2 : r.mission_id = mid := by simpa using (List.mem_filter.mp hr).2
      simp [hr2, hmem]
    rw [hnil]
    rfl
  unfold injectAnomaliesForMission
  rw [hclean]
  rfl

/-- Witness for C10 at a concrete contaminated database. -/
theorem inject_noop_witness :
    injectAnomaliesForMission db10w defaultConfig 1 d1cex 5 =
      ({ mission_id := 1, success := false, anomalies_injected := [],
         original_points_count := 0, modified_points_count := 0,
         error_message := some "Aucune trajectoire propre trouvée" }, db10w) :=
  inject_noop_on_contaminated db10w defaultConfig 1 d1cex 5 (by decide) (by decide)

theorem kr1 : d1cex.kindRand .retour_premature ≤ retourRule.probability := by
  simp only [d1cex]
  norm_num [retourRule]

theorem krOther (k : AnomalyType) (hk : k ≠ .retour_premature) :
    d1cex.kindRand k = 9/10 := by
  simp only [d1cex]
  exact if_neg hk

theorem hfold1 : defaultConfig.anomaly_types.foldl (kindStep d1cex) (pts1cex, []) =
    (injectEarlyReturn pts1cex earlyD1, ["retour_premature"]) := by
  have c2 : ¬(d1cex.kindRand .trajet_divergent ≤ divergentRule.probability) := by
    rw [krOther _ (by decide)]; norm_num [divergentRule]
  have c3 : ¬(d1cex.kindRand .arret_non_autorise ≤ arretRule.probability) := by
    rw [krOther _ (by decide)]; norm_num [arretRule]
  have c4 : ¬(d1cex.kindRand .vitesse_anormale ≤ vitesseRule.probability) := by
    rw [krOther _ (by decide)]; norm_num [vitesseRule]
  have c5 : ¬(d1cex.kindRand .deplacement_hors_heures ≤ horsHeuresRule.probability) := by
    rw [krOther _ (by decide)]; norm_num [horsHeuresRule]
  simp only [defaultConfig, List.foldl_cons, List.foldl_nil, kindStep,
    if_pos kr1, if_neg c2, if_neg c3, if_neg c4, if_neg c5]
  simp [applyTransform, d1cex, AnomalyType.value]

theorem hidx1 : pyIntNat ((pts1cex.length : ℚ) * earlyD1.earlyRet) = 5 := by
  norm_num [pts1cex, earlyD1, pyIntNat, pyInt_eq_floor_ceil]
  decide

theorem hnum1 : max 5 (pyIntNat (((pts1cex.getD 5 default).mission_end -
    (pts1cex.getD 5 default).timestamp) / 2 / 300)) = 5 := by
  norm_num [pts1cex, pyIntNat, pyInt_eq_floor_ceil]

theorem hguard1 : ¬(¬validateTrajectory pts1cex = true ∨ pts1cex.length < 10) := by
  decide

theorem htake1 : pts1cex.take 5 =
    [{ id := some 1, mission_id := 1, timestamp := 0, latitude := 0, longitude := 0,
       vitesse := 50, mission_start := 0, mission_end := 600 },
     { id := some 2, mission_id := 1, timestamp := 1, latitude := 0, longitude := 0,
       vitesse := 50, mission_start := 0, mission_end := 600 },
     { id := some 3, mission_id := 1, timestamp := 2, latitude := 0, longitude := 0,
       vitesse := 50, mission_start := 0, mission_end := 600 },
     { id := some 4, mission_id := 1, timestamp := 3, latitude := 0, longitude := 0,
       vitesse := 50, mission_start := 0, mission_end := 600 },
     { id := some 5, mission_id := 1, timestamp := 4, latitude := 0, longitude := 0,
       vitesse := 50, mission_start := 0, mission_end := 600 }] := by decide

theorem hmodlen1 : (injectEarlyReturn pts1cex earlyD1).length = 10 := by
  simp only [injectEarlyReturn, if_neg hguard1, hidx1, hnum1, List.length_append,
    List.length_map, List.length_range, List.length_take]
  decide

theorem filter_id_none_map (f : ℕ → TrajectPoint) (h : ∀ i, (f i).id = none)
    (l : List ℕ) :
    ((l.map f).filter (fun p => p.id = none)).length = l.length := by
  rw [List.filter_eq_self.mpr]
  · simp
  · intro x hx
    obtain ⟨i, _, rfl⟩ := List.mem_map.mp hx
    simp [h i]

theorem hmodfil1 :
    ((injectEarlyReturn pts1cex earlyD1).filter (fun p => p.id = none)).length = 5 := by
  simp only [injectEarlyReturn, if_neg hguard1, hidx1, hnum1, List.filter_append]
  rw [show (pts1cex.take 5).filter (fun p => decide (p.id = none)) = [] from by decide]
  simp only [List.nil_append]
  rw [filter_id_none_map _ (fun i => rfl)]
  simp

theorem hmodhd1 : (injectEarlyReturn pts1cex earlyD1).headD default =
    { id := some 1, mission_id := 1, timestamp := 0, latitude := 0, longitude := 0,
      vitesse := 50, mission_start := 0, mission_end := 600 } := by
  simp only [injectEarlyReturn, if_neg hguard1, hidx1, hnum1]
  rw [htake1]
  rfl

theorem hmodne1 : injectEarlyReturn pts1cex earlyD1 ≠ [] := by
  simp only [injectEarlyReturn, if_neg hguard1, hidx1, hnum1]
  rw [htake1]
  simp

theorem saveFold_facts (points : List TrajectPoint) (s : DB) :
    ((points.foldl saveStep s).trajets.length
        = s.trajets.length + (points.filter (fun p => p.id = none)).length) ∧
    (points.foldl saveStep s).anomalies = s.anomalies ∧
    ∀ r ∈ s.trajets, ∃ r2 ∈ (points.foldl saveStep s).trajets, r2.id = r.id := by
  induction points generalizing s with
  | nil => exact ⟨by simp, rfl, fun r hr => ⟨r, hr, rfl⟩⟩
  | cons p ps ih =>
      rw [List.foldl_cons]
      obtain ⟨ih1, ih2, ih3⟩ := ih (saveStep s p)
      have hstep : (saveStep s p).trajets.length
          = s.trajets.length + (if p.id = none then 1 else 0) ∧
          (saveStep s p).anomalies = s.anomalies ∧
          ∀ r ∈ s.trajets, ∃ r1 ∈ (saveStep s p).trajets, r1.id = r.id := by
        unfold saveStep
        cases hp : p.id with
        | none =>
            refine ⟨by simp, rfl, ?_⟩
            intro r hr
            exact ⟨r, List.mem_append_left _ hr, rfl⟩
        | some pid =>
            refine ⟨by simp, rfl, ?_⟩
            intro r hr
            refine ⟨if r.id = pid then
                { r with timestamp := p.timestamp, latitude := p.latitude,
                         longitude := p.longitude, vitesse := p.vitesse }
              else r, ?_, ?_⟩
            · have := List.mem_map_of_mem (fun r =>
                if r.id = pid then
                  { r with timestamp := p.timestamp, latitude := p.latitude,
                           longitude := p.longitude, vitesse := p.vitesse }
                else r) hr
              simpa using this
            · split <;> rfl
      refine ⟨?_, ih2.trans hstep.2.1, ?_⟩
      · rw [ih1, hstep.1, List.filter_cons]
        cases hp : p.id <;> simp [hp] <;> omega
      · intro r hr
        obtain ⟨r1, hr1, he1⟩ := hstep.2.2 r hr
        obtain ⟨r2, hr2, he2⟩ := ih3 r1 hr1
        exact ⟨r2, hr2, he2.trans he1⟩

theorem save_facts (db : DB) (points : List TrajectPoint) (mid : ℤ)
    (hne : points ≠ []) (hhd : (points.headD default).mission_id = mid)
    (hmid : mid ∉ contaminatedMissionIds db) :
    ((saveContaminatedTrajectory db points).trajets.length
        = db.trajets.length + (points.filter (fun p => p.id = none)).length) ∧
    (saveContaminatedTrajectory db points).anomalies = db.anomalies ∧
    ∀ r ∈ db.trajets,
      ∃ r2 ∈ (saveContaminatedTrajectory db points).trajets, r2.id = r.id := by
  match points, hne with
  | p0 :: rest, _ =>
    have hp0 : p0.mission_id = mid := by simpa using hhd
    have hdel : db.trajets.filter (fun r =>
        ¬(r.mission_id = p0.mission_id ∧
          p0.mission_id ∈ contaminatedMissionIds db)) = db.trajets := by
      apply List.filter_eq_self.mpr
      intro r hr
      simp [hp0, hmid]
    have hrw : saveContaminatedTrajectory db (p0 :: rest)
        = (p0 :: rest).foldl saveStep db := by
      show (p0 :: rest).foldl saveStep _ = _
      rw [hdel]
    rw [hrw]
    exact saveFold_facts (p0 :: rest) db

theorem hclean1 : getCleanTrajectories db1cex 1 = pts1cex := by decide

theorem injectAnomaliesForMission_eq (db : DB) (config : AnomalyConfig)
    (mid : ℤ) (d : InjectDraws) (now : ℚ)
    (hne : ¬(getCleanTrajectories db mid).isEmpty = true)
    (hgate : ¬config.injection_probability < d.gateRand) :
    injectAnomaliesForMission db config mid d now =
      (if (injectFold db config mid d).1.length <
          (getCleanTrajectories db mid).length then
        ({ mission_id := mid, success := false, anomalies_injected := [],
           original_points_count := 0, modified_points_count := 0,
           error_message := some validationErrorMessage },
         if (injectFold db config mid d).2.isEmpty then db
         else markMissionAsContaminated
           (saveContaminatedTrajectory db (injectFold db config mid d).1) mid
           (injectFold db config mid d).2 now)
      else
        ({ mission_id := mid, success := true,
           anomalies_injected := (injectFold db config mid d).2,
           original_points_count := (getCleanTrajectories db mid).length,
           modified_points_count := (injectFold db config mid d).1.length,
           error_message := none },
         if (injectFold db config mid d).2.isEmpty then db
         else markMissionAsContaminated
           (saveContaminatedTrajectory db (injectFold db config mid d).1) mid
           (injectFold db config mid d).2 now)) := by
  unfold injectAnomaliesForMission injectFold
  rw [if_neg hne, if_neg hgate]

theorem inject1_eval : injectAnomaliesForMission db1cex defaultConfig 1 d1cex 999 =
    ({ mission_id := 1, success := true, anomalies_injected := ["retour_premature"],
       original_points_count := 10, modified_points_count := 10,
       error_message := none },
     markMissionAsContaminated
       (saveContaminatedTrajectory db1cex (injectEarlyReturn pts1cex earlyD1))
       1 ["retour_premature"] 999) := by
  have hgate : ¬(defaultConfig.injection_probability < d1cex.gateRand) := by
    norm_num [defaultConfig, d1cex]
  have hif : injectFold db1cex defaultConfig 1 d1cex =
      (injectEarlyReturn pts1cex earlyD1, ["retour_premature"]) := by
    unfold injectFold
    rw [hclean1]
    exact hfold1
  rw [injectAnomaliesForMission_eq db1cex defaultConfig 1 d1cex 999
    (by rw [hclean1]; decide) hgate]
  rw [hif, hclean1]
  dsimp only
  rw [hmodlen1]
  rw [if_neg (by decide : ¬((10 : ℕ) < pts1cex.length))]
  rfl

theorem inject_keeps_stale_rows_counterexample :
    (EarlyReturnDraws.Valid earlyD1 retourRule ∧
      0 ≤ d1cex.gateRand ∧ d1cex.gateRand < 1 ∧
      (∀ k, 0 ≤ d1cex.kindRand k ∧ d1cex.kindRand k < 1)) ∧
    (injectAnomaliesForMission db1cex defaultConfig 1 d1cex 999).1.anomalies_injected
      = ["retour_premature"] ∧
    (injectAnomaliesForMission db1cex defaultConfig 1 d1cex 999).1.modified_points_count
      = 10 ∧
    (injectAnomaliesForMission db1cex defaultConfig 1 d1cex 999).2.trajets.length = 15 ∧
    (∃ a ∈ (injectAnomaliesForMission db1cex defaultConfig 1 d1cex 999).2.anomalies,
      a.atype = "TRAJECTORY_CONTAMINATED" ∧
      a.description = contaminationDescription ["retour_premature"]) ∧
    (15 : ℕ) ≠ 10 := by
  have hsave := save_facts db1cex (injectEarlyReturn pts1cex earlyD1) 1 hmodne1
    (by rw [hmodhd1]) (by decide)
  refine ⟨⟨?_, ?_, ?_, ?_⟩, ?_, ?_, ?_, ?_, by decide⟩
  · refine ⟨?_, ?_, ?_, ?_, ?_⟩
    · rw [show retourRule.paramRange "early_return_ratio" = (0.3, 0.7) from rfl]
      norm_num [earlyD1, inRange]
    · rw [show retourRule.paramRange "detour_distance_km" = (5, 15) from rfl]
      norm_num [earlyD1, inRange]
    · intro i; norm_num [earlyD1, inRange]
    · intro i; norm_num [earlyD1, inRange]
    · intro i; norm_num [earlyD1, inRange]
  · norm_num [d1cex]
  · norm_num [d1cex]
  · intro k
    cases k <;> simp [d1cex] <;> norm_num
  · rw [inject1_eval]
  · rw [inject1_eval]
  · rw [inject1_eval]
    show (markMissionAsContaminated _ 1 _ 999).trajets.length = 15
    unfold markMissionAsContaminated
    rw [hsave.1, hmodfil1]
    rfl
  · rw [inject1_eval]
    show ∃ a ∈ (markMissionAsContaminated _ 1 _ 999).anomalies, _
    unfold markMissionAsContaminated
    rw [hsave.2.1]
    refine ⟨{ mission_id := 1, atype := "TRAJECTORY_CONTAMINATED",
              description := contaminationDescription ["retour_premature"],
              dateDetection := 999 }, ?_, rfl, rfl⟩
    simp [db1cex]

theorem earlyD1_valid : EarlyReturnDraws.Valid earlyD1 retourRule := by
  refine ⟨?_, ?_, ?_, ?_, ?_⟩
  · rw [show retourRule.paramRange "early_return_ratio" = (0.3, 0.7) from rfl]
    norm_num [earlyD1, inRange]
  · rw [show retourRule.paramRange "detour_distance_km" = (5, 15) from rfl]
    norm_num [earlyD1, inRange]
  · intro i; norm_num [earlyD1, inRange]
  · intro i; norm_num [earlyD1, inRange]
  · intro i; norm_num [earlyD1, inRange]

theorem d1cex_rand_bounds : 0 ≤ d1cex.gateRand ∧ d1cex.gateRand < 1 ∧
    ∀ k, 0 ≤ d1cex.kindRand k ∧ d1cex.kindRand k < 1 := by
  refine ⟨by norm_num [d1cex], by norm_num [d1cex], ?_⟩
  intro k
  cases k <;> simp [d1cex] <;> norm_num

theorem kindFold_snd (d : InjectDraws) (cfgs : List (AnomalyType × AnomalyRule))
    (acc : List TrajectPoint × List String) :
    (cfgs.foldl (kindStep d) acc).2 = acc.2 ++
      (cfgs.filter (fun kr => d.kindRand kr.1 ≤ kr.2.probability)).map
        (fun kr => kr.1.value) := by
  induction cfgs generalizing acc with
  | nil => simp
  | cons c cs ih =>
      rw [List.foldl_cons, ih, List.filter_cons]
      unfold kindStep
      split
      · next h => simp [h]
      · next h => simp [h]

theorem hclean4 : getCleanTrajectories db4cex 1 = pts4cex := by decide

theorem hnoop4 : injectEarlyReturn pts4cex earlyD1 = pts4cex := by
  unfold injectEarlyReturn
  rw [if_pos (by decide)]

theorem hfold4 : defaultConfig.anomaly_types.foldl (kindStep d1cex) (pts4cex, []) =
    (pts4cex, ["retour_premature"]) := by
  have c2 : ¬(d1cex.kindRand .trajet_divergent ≤ divergentRule.probability) := by
    rw [krOther _ (by decide)]; norm_num [divergentRule]
  have c3 : ¬(d1cex.kindRand .arret_non_autorise ≤ arretRule.probability) := by
    rw [krOther _ (by decide)]; norm_num [arretRule]
  have c4 : ¬(d1cex.kindRand .vitesse_anormale ≤ vitesseRule.probability) := by
    rw [krOther _ (by decide)]; norm_num [vitesseRule]
  have c5 : ¬(d1cex.kindRand .deplacement_hors_heures ≤ horsHeuresRule.probability) := by
    rw [krOther _ (by decide)]; norm_num [horsHeuresRule]
  simp only [defaultConfig, List.foldl_cons, List.foldl_nil, kindStep,
    if_pos kr1, if_neg c2, if_neg c3, if_neg c4, if_neg c5]
  simp [applyTransform, d1cex, AnomalyType.value, hnoop4]

theorem hsave4 : saveContaminatedTrajectory db4cex pts4cex = db4cex := by decide

theorem inject4_eval : injectAnomaliesForMission db4cex defaultConfig 1 d1cex 777 =
    ({ mission_id := 1, success := true, anomalies_injected := ["retour_premature"],
       original_points_count := 3, modified_points_count := 3, error_message := none },
     markMissionAsContaminated db4cex 1 ["retour_premature"] 777) := by
  have hgate : ¬(defaultConfig.injection_probability < d1cex.gateRand) := by
    norm_num [defaultConfig, d1cex]
  have hif : injectFold db4cex defaultConfig 1 d1cex = (pts4cex, ["retour_premature"]) := by
    unfold injectFold
    rw [hclean4]
    exact hfold4
  rw [injectAnomaliesForMission_eq db4cex defaultConfig 1 d1cex 777
    (by rw [hclean4]; decide) hgate]
  rw [hif, hclean4]
  dsimp only
  rw [if_neg (by decide : ¬(pts4cex.length < pts4cex.length)), hsave4]
  rfl

/-- Claim C4 as stated is false: on a 3-point trajectory, the early-return
draw succeeds but its transform is a guarded no-op; the kind is nevertheless
reported as injected and the `CONTAMINATED` sentinel is persisted although
the stored trajectory rows are unchanged. -/
theorem sentinel_without_modification_counterexample :
    (EarlyReturnDraws.Valid earlyD1 retourRule ∧
      0 ≤ d1cex.gateRand ∧ d1cex.gateRand < 1 ∧
      (∀ k, 0 ≤ d1cex.kindRand k ∧ d1cex.kindRand k < 1)) ∧
    (injectAnomaliesForMission db4cex defaultConfig 1 d1cex 777).1.anomalies_injected
      = ["retour_premature"] ∧
    (injectAnomaliesForMission db4cex defaultConfig 1 d1cex 777).2.trajets
      = db4cex.trajets ∧
    (∃ a ∈ (injectAnomaliesForMission db4cex defaultConfig 1 d1cex 777).2.anomalies,
      a.atype = "TRAJECTORY_CONTAMINATED") ∧
    (injectAnomaliesForMission db4cex defaultConfig 1 d1cex 777).1.original_points_count
      = (injectAnomaliesForMission db4cex defaultConfig 1 d1cex 777).1.modified_points_count := by
  refine ⟨⟨earlyD1_valid, d1cex_rand_bounds.1, d1cex_rand_bounds.2.1,
    d1cex_rand_bounds.2.2⟩, ?_, ?_, ?_, ?_⟩
  · rw [inject4_eval]
  · rw [inject4_eval]; rfl
  · rw [inject4_eval]
    exact ⟨{ mission_id := 1, atype := "TRAJECTORY_CONTAMINATED",
             description := contaminationDescription ["retour_premature"],
             dateDetection := 777 }, by simp [markMissionAsContaminated, db4cex], rfl⟩
  · rw [inject4_eval]

/-- Claim C1 (corrected): when the injector persists a contaminated
trajectory for a mission not already carrying the sentinel, it does not
delete the mission's stored points — every stored row survives with its id,
points carrying an id are updated in place and only the id-less synthesized
points are inserted — and the `CONTAMINATED` sentinel is upserted with a
description listing all injected kind names. -/
theorem save_mark_keeps_rows_and_upserts_sentinel
    (db : DB) (points : List TrajectPoint) (kinds : List String) (mid : ℤ)
    (now : ℚ) (hne : points ≠ []) (hhd : (points.headD default).mission_id = mid)
    (hmid : mid ∉ contaminatedMissionIds db) :
    ((markMissionAsContaminated (saveContaminatedTrajectory db points) mid kinds
        now).trajets.length
      = db.trajets.length + (points.filter (fun p => p.id = none)).length) ∧
    (∀ r ∈ db.trajets,
      ∃ r2 ∈ (markMissionAsContaminated (saveContaminatedTrajectory db points) mid
        kinds now).trajets, r2.id = r.id) ∧
    (markMissionAsContaminated (saveContaminatedTrajectory db points) mid kinds
        now).anomalies
      = db.anomalies.filter (fun a =>
          ¬(a.mission_id = mid ∧ a.atype = "TRAJECTORY_CONTAMINATED")) ++
        [{ mission_id := mid, atype := "TRAJECTORY_CONTAMINATED",
           description := contaminationDescription kinds, dateDetection := now }] := by
  obtain ⟨h1, h2, h3⟩ := save_facts db points mid hne hhd hmid
  unfold markMissionAsContaminated
  exact ⟨h1, h3, by rw [h2]⟩

/-- Witness for C1's corrected statement: one updated point and one inserted
point on a mission with three stored rows. -/
theorem save_mark_keeps_rows_witness :
    ((markMissionAsContaminated (saveContaminatedTrajectory db4cex
        [{ id := some 1, mission_id := 1, timestamp := 0, latitude := 0,
           longitude := 0, vitesse := 45, mission_start := 0, mission_end := 7200 },
         { id := none, mission_id := 1, timestamp := 99, latitude := 0,
           longitude := 0, vitesse := 20, mission_start := 0, mission_end := 7200 }])
        1 ["vitesse_anormale"] 1).trajets.length
      = db4cex.trajets.length +
        (([{ id := some 1, mission_id := 1, timestamp := 0, latitude := 0,
             longitude := 0, vitesse := 45, mission_start := 0, mission_end := 7200 },
           { id := none, mission_id := 1, timestamp := 99, latitude := 0,
             longitude := 0, vitesse := 20, mission_start := 0, mission_end := 7200 }]
          : List TrajectPoint).filter (fun p => p.id = none)).length) ∧
    (∀ r ∈ db4cex.trajets,
      ∃ r2 ∈ (markMissionAsContaminated (saveContaminatedTrajectory db4cex
        [{ id := some 1, mission_id := 1, timestamp := 0, latitude := 0,
           longitude := 0, vitesse := 45, mission_start := 0, mission_end := 7200 },
         { id := none, mission_id := 1, timestamp := 99, latitude := 0,
           longitude := 0, vitesse := 20, mission_start := 0, mission_end := 7200 }])
        1 ["vitesse_anormale"] 1).trajets, r2.id = r.id) ∧
    (markMissionAsContaminated (saveContaminatedTrajectory db4cex
        [{ id := some 1, mission_id := 1, timestamp := 0, latitude := 0,
           longitude := 0, vitesse := 45, mission_start := 0, mission_end := 7200 },
         { id := none, mission_id := 1, timestamp := 99, latitude := 0,
           longitude := 0, vitesse := 20, mission_start := 0, mission_end := 7200 }])
        1 ["vitesse_anormale"] 1).anomalies
      = db4cex.anomalies.filter (fun a =>
          ¬(a.mission_id = 1 ∧ a.atype = "TRAJECTORY_CONTAMINATED")) ++
        [{ mission_id := 1, atype := "TRAJECTORY_CONTAMINATED",
           description := contaminationDescription ["vitesse_anormale"],
           dateDetection := 1 }] :=
  save_mark_keeps_rows_and_upserts_sentinel db4cex _ ["vitesse_anormale"] 1 1
    (by decide) (by decide) (by decide)

/-- Claim C4 (corrected): whenever the global gate passes and a clean
trajectory exists, the database gets the `CONTAMINATED` sentinel exactly when
some per-kind probability draw succeeded — whether or not the drawn
transforms changed the trajectory. The returned record reports exactly the
drawn kinds when the modified trajectory is not shorter than the original;
when a transform shortened it, the `AnomalyInjectionResult` validator raises
after the sentinel was already persisted and the call returns the failure
record with an empty injected-kind list. -/
theorem injected_kinds_are_the_drawn_kinds (db : DB) (config : AnomalyConfig)
    (mid : ℤ) (d : InjectDraws) (now : ℚ)
    (hne : getCleanTrajectories db mid ≠ [])
    (hgate : ¬ config.injection_probability < d.gateRand) :
    ((injectAnomaliesForMission db config mid d now).2 =
      if drawnKinds config d = [] then db
      else markMissionAsContaminated
        (saveContaminatedTrajectory db (injectFold db config mid d).1) mid
        (drawnKinds config d) now) ∧
    ((getCleanTrajectories db mid).length ≤ (injectFold db config mid d).1.length →
      (injectAnomaliesForMission db config mid d now).1.anomalies_injected =
        drawnKinds config d) ∧
    ((injectFold db config mid d).1.length < (getCleanTrajectories db mid).length →
      (injectAnomaliesForMission db config mid d now).1 =
        { mission_id := mid, success := false, anomalies_injected := [],
          original_points_count := 0, modified_points_count := 0,
          error_message := some validationErrorMessage }) := by
  have hsnd : (injectFold db config mid d).2 = drawnKinds config d := by
    unfold injectFold drawnKinds
    rw [kindFold_snd]
    simp
  have hemp : (injectFold db config mid d).2.isEmpty = true ↔
      drawnKinds config d = [] := by
    rw [hsnd, List.isEmpty_iff]
  have hdb1 : (if (injectFold db config mid d).2.isEmpty = true then db
      else markMissionAsContaminated
        (saveContaminatedTrajectory db (injectFold db config mid d).1) mid
        (injectFold db config mid d).2 now) =
      (if drawnKinds config d = [] then db
       else markMissionAsContaminated
         (saveContaminatedTrajectory db (injectFold db config mid d).1) mid
         (drawnKinds config d) now) := by
    by_cases he : (injectFold db config mid d).2.isEmpty = true
    · rw [if_pos he, if_pos (hemp.mp he)]
    · rw [if_neg he, if_neg (fun h => he (hemp.mpr h)), hsnd]
  rw [injectAnomaliesForMission_eq db config mid d now (by simpa using hne) hgate]
  by_cases hv : (injectFold db config mid d).1.length <
      (getCleanTrajectories db mid).length
  · rw [if_pos hv]
    exact ⟨hdb1, fun hle => absurd hv (by omega), fun _ => rfl⟩
  · rw [if_neg hv]
    exact ⟨hdb1, fun _ => hsnd, fun hlt => absurd hlt hv⟩

/-- Witness for C4's corrected statement at the counterexample input, where
the guarded no-op transform keeps the trajectory length. -/
theorem injected_kinds_witness :
    getCleanTrajectories db4cex 1 ≠ [] ∧
    ¬ defaultConfig.injection_probability < d1cex.gateRand ∧
    ((getCleanTrajectories db4cex 1).length ≤
        (injectFold db4cex defaultConfig 1 d1cex).1.length →
      (injectAnomaliesForMission db4cex defaultConfig 1 d1cex 777).1.anomalies_injected =
        drawnKinds defaultConfig d1cex) :=
  ⟨by rw [hclean4]; simp [pts4cex],
   by norm_num [defaultConfig, d1cex],
   (injected_kinds_are_the_drawn_kinds db4cex defaultConfig 1 d1cex 777
     (by rw [hclean4]; simp [pts4cex])
     (by norm_num [defaultConfig, d1cex])).2.1⟩

theorem headD_eq_getD_zero {α : Type} (l : List α) (d : α) :
    l.headD d = l.getD 0 d := by
  cases l <;> rfl

theorem genDuration_pos (m : SimMission) : 0 < genDuration m := by
  unfold genDuration
  split
  · norm_num
  · next h => push_neg at h; exact h

theorem genPoints_getD (m : SimMission) (d : GenDraws) (i : ℕ)
    (h : i < d.numPoints) :
    (generateTrajectoryPoints m d).getD i default = genPointAt m d i := by
  unfold generateTrajectoryPoints
  exact getD_map_range _ _ _ _ h

/-- Claim C5 (confirmed): the generator emits exactly the drawn number of
samples, `N ∈ [20, 50]`; the first timestamp is the mission start and the
timestamps are strictly increasing. -/
theorem generator_count_start_strict_mono (m : SimMission) (d : GenDraws)
    (hv : d.Valid) :
    (generateTrajectoryPoints m d).length = d.numPoints ∧
    20 ≤ d.numPoints ∧ d.numPoints ≤ 50 ∧
    ((generateTrajectoryPoints m d).headD default).timestamp = m.dateDebut ∧
    ∀ i, i + 1 < (generateTrajectoryPoints m d).length →
      ((generateTrajectoryPoints m d).getD i default).timestamp <
        ((generateTrajectoryPoints m d).getD (i+1) default).timestamp := by
  obtain ⟨h20, h50, _⟩ := hv
  have hlen : (generateTrajectoryPoints m d).length = d.numPoints := by
    simp [generateTrajectoryPoints]
  have hpos : 0 < d.numPoints := by omega
  have hint : 0 < genInterval m d := by
    unfold genInterval
    exact div_pos (genDuration_pos m) (by exact_mod_cast hpos)
  refine ⟨hlen, h20, h50, ?_, ?_⟩
  · rw [headD_eq_getD_zero, genPoints_getD m d 0 hpos]
    show m.dateDebut + (0 : ℚ) * genInterval m d = m.dateDebut
    ring
  · intro i hi
    rw [hlen] at hi
    rw [genPoints_getD m d i (by omega), genPoints_getD m d (i+1) hi]
    have hts : ∀ j : ℕ, (genPointAt m d j).timestamp =
        m.dateDebut + (j : ℚ) * genInterval m d := fun j => rfl
    rw [hts i, hts (i+1)]
    push_cast
    nlinarith [hint]

theorem d5w_valid : GenDraws.Valid d5w := by
  refine ⟨by norm_num [d5w], by norm_num [d5w], by norm_num [d5w, inRange],
    ?_, ?_, ?_, ?_, ?_, ?_, ?_, ?_, ?_⟩
  · intro i; norm_num [d5w, inRange]
  · intro i; norm_num [d5w, inRange]
  · intro i; norm_num [d5w, inRange]
  · intro i; norm_num [d5w, inRange]
  · intro i; norm_num [d5w, inRange]
  · intro i; norm_num [d5w, inRange]
  · simp [d5w, majorCities]
  · simp [d5w, majorCities]
  · simp [d5w]
    norm_num

/-- Witness for C5 at the concrete draws `d5w`. -/
theorem generator_count_witness :
    (generateTrajectoryPoints m5w d5w).length = d5w.numPoints ∧
    20 ≤ d5w.numPoints ∧ d5w.numPoints ≤ 50 ∧
    ((generateTrajectoryPoints m5w d5w).headD default).timestamp = m5w.dateDebut ∧
    ∀ i, i + 1 < (generateTrajectoryPoints m5w d5w).length →
      ((generateTrajectoryPoints m5w d5w).getD i default).timestamp <
        ((generateTrajectoryPoints m5w d5w).getD (i+1) default).timestamp :=
  generator_count_start_strict_mono m5w d5w d5w_valid

theorem clampQ_mem (lo hi x : ℚ) (h : lo ≤ hi) :
    lo ≤ clampQ lo hi x ∧ clampQ lo hi x ≤ hi :=
  ⟨le_max_left _ _, max_le h (min_le_left _ _)⟩

theorem generateRouteWaypoints_mem_bounds (s e : ℚ × ℚ) (d : GenDraws) (j : ℕ)
    (hj : j < 8) :
    moroccoMinLat ≤ ((generateRouteWaypoints s e 8 d).getD j (0, 0)).1 ∧
    ((generateRouteWaypoints s e 8 d).getD j (0, 0)).1 ≤ moroccoMaxLat ∧
    moroccoMinLon ≤ ((generateRouteWaypoints s e 8 d).getD j (0, 0)).2 ∧
    ((generateRouteWaypoints s e 8 d).getD j (0, 0)).2 ≤ moroccoMaxLon := by
  rw [generateRouteWaypoints, getD_map_range _ _ _ _ hj]
  have h1 := clampQ_mem moroccoMinLat moroccoMaxLat
    (s.1 + (e.1 - s.1) * ((j : ℚ) / ((8 : ℚ) - 1)) + d.wpJLat j)
    (by norm_num [moroccoMinLat, moroccoMaxLat])
  have h2 := clampQ_mem moroccoMinLon moroccoMaxLon
    (s.2 + (e.2 - s.2) * ((j : ℚ) / ((8 : ℚ) - 1)) + d.wpJLon j)
    (by norm_num [moroccoMinLon, moroccoMaxLon])
  exact ⟨h1.1, h1.2, h2.1, h2.2⟩

theorem clampQ_eq_self (lo hi x : ℚ) (h1 : lo ≤ x) (h2 : x ≤ hi) :
    clampQ lo hi x = x := by
  unfold clampQ
  rw [min_eq_right h2, max_eq_right h1]

theorem majorCities_bounds :
    ∀ c ∈ majorCities, (30.42 : ℚ) ≤ c.1 ∧ c.1 ≤ 35.76 ∧
      (-9.6 : ℚ) ≤ c.2 ∧ c.2 ≤ -1.9 := by
  intro c hc
  simp only [majorCities, List.mem_cons, List.not_mem_nil, or_false] at hc
  rcases hc with rfl | rfl | rfl | rfl | rfl | rfl | rfl | rfl | rfl | rfl <;>
    norm_num

theorem generateRouteWaypoints_getD_inside (s e : ℚ × ℚ) (d : GenDraws) (j : ℕ)
    (hj : j < 8)
    (hs : (30.42 : ℚ) ≤ s.1 ∧ s.1 ≤ 35.76 ∧ (-9.6 : ℚ) ≤ s.2 ∧ s.2 ≤ -1.9)
    (he : (30.42 : ℚ) ≤ e.1 ∧ e.1 ≤ 35.76 ∧ (-9.6 : ℚ) ≤ e.2 ∧ e.2 ≤ -1.9)
    (hjlat : inRange (d.wpJLat j) (-0.01, 0.01))
    (hjlon : inRange (d.wpJLon j) (-0.01, 0.01)) :
    (30.41 : ℚ) ≤ ((generateRouteWaypoints s e 8 d).getD j (0, 0)).1 ∧
    ((generateRouteWaypoints s e 8 d).getD j (0, 0)).1 ≤ 35.77 ∧
    (-9.61 : ℚ) ≤ ((generateRouteWaypoints s e 8 d).getD j (0, 0)).2 ∧
    ((generateRouteWaypoints s e 8 d).getD j (0, 0)).2 ≤ -1.89 := by
  rw [generateRouteWaypoints, getD_map_range _ _ _ _ hj]
  obtain ⟨hs1, hs2, hs3, hs4⟩ := hs
  obtain ⟨he1, he2, he3, he4⟩ := he
  obtain ⟨hj1, hj2⟩ := hjlat
  obtain ⟨hj3, hj4⟩ := hjlon
  have hj1b : -(0.01 : ℚ) ≤ d.wpJLat j := by
    rw [show -(0.01 : ℚ) = -0.01 from by norm_num]
    exact hj1
  have hj3b : -(0.01 : ℚ) ≤ d.wpJLon j := by
    rw [show -(0.01 : ℚ) = -0.01 from by norm_num]
    exact hj3
  have ht0 : (0 : ℚ) ≤ (j : ℚ) / ((8 : ℚ) - 1) := by positivity
  have ht1 : (j : ℚ) / ((8 : ℚ) - 1) ≤ 1 := by
    rw [div_le_one (by norm_num)]
    have : (j : ℚ) ≤ 7 := by exact_mod_cast Nat.le_of_lt_succ hj
    linarith
  have hlat1 : (30.41 : ℚ) ≤
      s.1 + (e.1 - s.1) * ((j : ℚ) / ((8 : ℚ) - 1)) + d.wpJLat j := by
    nlinarith
  have hlat2 : s.1 + (e.1 - s.1) * ((j : ℚ) / ((8 : ℚ) - 1)) + d.wpJLat j ≤
      35.77 := by
    nlinarith
  have hlon1 : (-9.61 : ℚ) ≤
      s.2 + (e.2 - s.2) * ((j : ℚ) / ((8 : ℚ) - 1)) + d.wpJLon j := by
    nlinarith
  have hlon2 : s.2 + (e.2 - s.2) * ((j : ℚ) / ((8 : ℚ) - 1)) + d.wpJLon j ≤
      -1.89 := by
    nlinarith
  dsimp only
  push_cast
  rw [clampQ_eq_self moroccoMinLat moroccoMaxLat _
      (by unfold moroccoMinLat; linarith) (by unfold moroccoMaxLat; linarith),
    clampQ_eq_self moroccoMinLon moroccoMaxLon _
      (by unfold moroccoMinLon; linarith) (by unfold moroccoMaxLon; linarith)]
  exact ⟨hlat1, hlat2, hlon1, hlon2⟩

/-- Claim C6 (corrected): only for missions without a predefined route —
there every generated sample lies inside the Morocco bounding box itself:
the configured cities sit at least 0.13 degrees inside the box, so the
interpolated waypoints (with their 0.01-degree jitter, and unchanged by the
clamp) and the 0.005-degree per-sample jitter never reach the boundary. A
predefined route is used verbatim and is never clamped
(`route_outside_bounds_counterexample`). -/
theorem generator_respects_bounds_without_route (m : SimMission) (d : GenDraws)
    (hroute : m.trajet_predefini = []) (hv : d.Valid) :
    ∀ p ∈ generateTrajectoryPoints m d, inMoroccoBounds p.latitude p.longitude := by
  obtain ⟨_, _, _, hlatV, hlonV, _, _, hwJLat, hwJLon, hsC, heC, _⟩ := hv
  intro p hp
  rw [generateTrajectoryPoints, List.mem_map] at hp
  obtain ⟨i, _, rfl⟩ := hp
  have hwps : genWaypoints m d = generateRouteWaypoints d.startCity d.endCity 8 d := by
    rw [genWaypoints, hroute]
    simp
  have hlen : (generateRouteWaypoints d.startCity d.endCity 8 d).length = 8 := by
    simp [generateRouteWaypoints]
  have hidx : min (pyIntNat ((i : ℚ) / (d.numPoints : ℚ) *
      ((generateRouteWaypoints d.startCity d.endCity 8 d).length : ℚ)))
      ((generateRouteWaypoints d.startCity d.endCity 8 d).length - 1) < 8 := by
    rw [hlen]
    omega
  have hbase := generateRouteWaypoints_getD_inside d.startCity d.endCity d _ hidx
    (majorCities_bounds _ hsC) (majorCities_bounds _ heC) (hwJLat _) (hwJLon _)
  have hlat : (genPointAt m d i).latitude =
      (genBasePos (genWaypoints m d) d.numPoints i).1 + d.latVar i := rfl
  have hlon : (genPointAt m d i).longitude =
      (genBasePos (genWaypoints m d) d.numPoints i).2 + d.lonVar i := rfl
  have hbl : genBasePos (genWaypoints m d) d.numPoints i =
      (generateRouteWaypoints d.startCity d.endCity 8 d).getD
        (min (pyIntNat ((i : ℚ) / (d.numPoints : ℚ) *
          ((generateRouteWaypoints d.startCity d.endCity 8 d).length : ℚ)))
          ((generateRouteWaypoints d.startCity d.endCity 8 d).length - 1)) (0, 0) := by
    rw [genBasePos, hwps]
  unfold inMoroccoBounds moroccoMinLat moroccoMaxLat moroccoMinLon moroccoMaxLon
  rw [hlat, hlon, hbl]
  obtain ⟨hb1, hb2, hb3, hb4⟩ := hbase
  obtain ⟨hv1, hv2⟩ := hlatV i
  obtain ⟨hv3, hv4⟩ := hlonV i
  have hv1b : -(0.005 : ℚ) ≤ d.latVar i := by
    rw [show -(0.005 : ℚ) = -0.005 from by norm_num]
    exact hv1
  have hv3b : -(0.005 : ℚ) ≤ d.lonVar i := by
    rw [show -(0.005 : ℚ) = -0.005 from by norm_num]
    exact hv3
  refine ⟨by linarith, by linarith, by linarith, by linarith⟩

/-- Witness for C6 at the concrete mission `m5w` (no route) and draws `d5w`. -/
theorem generator_respects_bounds_witness :
    m5w.trajet_predefini = [] ∧ GenDraws.Valid d5w ∧
    ∀ p ∈ generateTrajectoryPoints m5w d5w,
      inMoroccoBounds p.latitude p.longitude :=
  ⟨rfl, d5w_valid, generator_respects_bounds_without_route m5w d5w rfl d5w_valid⟩

/-- Counterexample to C6 as stated: a predefined route is used verbatim,
never clamped, so a route outside Morocco yields out-of-bounds samples even
under valid draws. -/
theorem route_outside_bounds_counterexample :
    GenDraws.Valid d5w ∧ m6cex.trajet_predefini ≠ [] ∧
    ∃ p ∈ generateTrajectoryPoints m6cex d5w,
      ¬ inMoroccoBounds p.latitude p.longitude := by
  refine ⟨d5w_valid, by simp [m6cex], ?_⟩
  refine ⟨genPointAt m6cex d5w 0, ?_, ?_⟩
  · rw [generateTrajectoryPoints, List.mem_map]
    exact ⟨0, by simp [d5w], rfl⟩
  · have hlat : (genPointAt m6cex d5w 0).latitude = 60 := by
      show genLat d5w (genWaypoints m6cex d5w) 0 = 60
      rw [genWaypoints]
      norm_num [m6cex, genLat, genBasePos, d5w, pyIntNat, pyInt_eq_floor_ceil]
    rw [inMoroccoBounds, hlat]
    norm_num [moroccoMaxLat]

